import Mathlib

/-!
# Overlay synchronisation of `VulkanWidget` (EditorWindow.cpp / EditorWindow.h)

A shallow embedding of the overlay subsystem of the editor window: the
floating overlay widget, its four action buttons, the deferred recomputes
(`QTimer::singleShot`) and the window-system handlers that drive them.  The
outliner rows with the primitive registry and the eye icon delegate follow in
sections of their own.

Modelling conventions.

* The widget state is a record `VulkanWidget`; every C++ method becomes a
  function on that record.  `ui->overlayWidget` may be a null pointer and is an
  `Option`.  `ui->vulkanContainer` is dereferenced unguarded everywhere in the
  source and is taken to exist.
* What the toolkit reports when the code asks (`isActiveWindow()`,
  `isVisible()`, `isMinimized()`, `m_vulkanWindow->isVisible()`,
  `ui->vulkanContainer->size()` and `mapToGlobal(QPoint(0, 0))`) is passed to
  each handler as a `Sample`.
* `overlay->findChildren<QPushButton*>()` is the field `buttons` of the
  overlay, in child order.  The code never removes a child, and a new child is
  appended, so a `QPushButton*` that points to a child of the overlay is the
  index of that child in `buttons`; a null pointer is `none`.
* Pixel quantities are `Int`.  Widget sizes lie in `0 .. QWIDGETSIZE_MAX`
  (2^24 - 1), so none of the `int` expressions of the source can wrap.
* `setGeometry` records the rectangle it is given; stacking order (`raise()`)
  is not recorded.
* A handler that dereferences a null `ui->overlayWidget` returns `none`.
-/

namespace EditorWindow

/-! ## Constants (EditorWindow.h, lines 128-132) -/

def BUTTON_COUNT : Nat := 4
def BUTTON_WIDTH : Int := 120
def BUTTON_HEIGHT : Int := 40
def SPACING : Int := 10
def TOP_MARGIN : Int := 10

/-- The toolkit's `QWIDGETSIZE_MAX`. -/
def QWIDGETSIZE_MAX : Int := 16777215

/-! ## Toolkit value types -/

structure QPoint where
  x : Int
  y : Int
  deriving DecidableEq, Repr

structure QSize where
  width : Int
  height : Int
  deriving DecidableEq, Repr

/-- A rectangle as built by `QRect(topLeft, size)`. -/
structure QRect where
  topLeft : QPoint
  size : QSize
  deriving DecidableEq, Repr

/-- The slots of `VulkanWidget` that `initializeButtonArray` connects. -/
inductive Slot where
  | onScreenshotClicked
  | onShowAllClicked
  | onHideAllClicked
  | onToggleGridClicked
  deriving DecidableEq, Repr

/-- A push button child of the overlay.  `clicked` lists the slots connected to
its `clicked` signal, one entry per `connect` call. -/
structure QPushButton where
  text : String
  fixedSize : Option QSize
  pos : QPoint
  shown : Bool
  clicked : List Slot
  deriving DecidableEq, Repr

inductive WindowFlag where
  | FramelessWindowHint
  | Tool
  | WindowStaysOnTopHint
  deriving DecidableEq, Repr

/-- The overlay widget `ui->overlayWidget`. -/
structure OverlayWidget where
  hasParent : Bool
  windowFlags : List WindowFlag
  translucentBackground : Bool
  noSystemBackground : Bool
  showWithoutActivating : Bool
  minimumSize : QSize
  maximumSize : QSize
  sizePolicyExpanding : Bool
  styleSheetSet : Bool
  geometry : QRect
  visible : Bool
  buttons : List QPushButton
  deriving DecidableEq, Repr

/-- What a `QTimer::singleShot` lambda does when it fires: the lambdas of
`focusInEvent`, `resizeEvent`, `changeEvent`, `moveEvent` and `eventFilter` and
the inner lambda of `setupOverlayWidget` only call `updateOverlayGeometry`
(`recompute`); the outer lambda of `setupOverlayWidget` (line 417) calls it and
then schedules the inner one (`firstLayout`). -/
inductive Task where
  | recompute
  | firstLayout
  deriving DecidableEq, Repr

/-- A pending `QTimer::singleShot(delay, this, task)`. -/
structure SingleShot where
  delay : Nat
  task : Task
  deriving DecidableEq, Repr

/-- A `QTimer` whose `timeout` is connected to `setupOverlayWidget`. -/
structure QTimer where
  singleShot : Bool
  interval : Nat
  active : Bool
  deriving DecidableEq, Repr

/-- The part of `VulkanWidget` the overlay subsystem reads and writes.
`timers` holds the `QTimer` objects created by `initializeOverlaySystem`, and
`m_overlayUpdateTimer` points into it.  `singleShots` holds the pending
`QTimer::singleShot` calls whose context object is this widget, oldest first. -/
structure VulkanWidget where
  overlayWidget : Option OverlayWidget
  m_vulkanWindow : Bool
  m_overlayButtons : List (Option Nat)
  m_overlayInitialized : Bool
  timers : List QTimer
  m_overlayUpdateTimer : Option Nat
  containerFilterInstalled : Bool
  singleShots : List SingleShot
  deriving DecidableEq, Repr

/-- The toolkit state a handler can sample. -/
structure Sample where
  isActiveWindow : Bool
  isVisible : Bool
  isMinimized : Bool
  vulkanWindowVisible : Bool
  containerSize : QSize
  containerTopLeft : QPoint
  deriving DecidableEq, Repr

/-! ## Small toolkit operations -/

/-- Apply `f` to the button a handle points to. -/
def updateButton (f : QPushButton → QPushButton) : Nat → List QPushButton → List QPushButton
  | _, [] => []
  | 0, b :: bs => f b :: bs
  | k + 1, b :: bs => b :: updateButton f k bs

/-- Calls `ui->overlayWidget->hide()` behind the guard `if (ui->overlayWidget)`. -/
def hideOverlayIfPresent (w : VulkanWidget) : VulkanWidget :=
  match w.overlayWidget with
  | none => w
  | some ov => { w with overlayWidget := some { ov with visible := false } }

/-- Calls `ui->overlayWidget->hide()` with no guard (lines 555 and 678). -/
def hideOverlayUnguarded (w : VulkanWidget) : Option VulkanWidget :=
  match w.overlayWidget with
  | none => none
  | some ov => some { w with overlayWidget := some { ov with visible := false } }

/-- Registers `QTimer::singleShot(delay, this, task)`. -/
def scheduleSingleShot (delay : Nat) (t : Task) (w : VulkanWidget) : VulkanWidget :=
  { w with singleShots := w.singleShots ++ [{ delay := delay, task := t }] }

/-! ## Geometry (lines 469-507) -/

/-- The `x` of line 497. -/
def buttonX (renderSize : QSize) : Int :=
  renderSize.width - BUTTON_WIDTH - SPACING

/-- The `y` of line 501. -/
def buttonY (i : Nat) : Int :=
  TOP_MARGIN + (i : Int) * (BUTTON_HEIGHT + SPACING)

/-- Calls `move(x, y); raise(); show();` on the button behind a handle. -/
def moveButton (b : Nat) (p : QPoint) (w : VulkanWidget) : VulkanWidget :=
  match w.overlayWidget with
  | none => w
  | some ov =>
    let moved := updateButton (fun btn => { btn with pos := p, shown := true }) b ov.buttons
    { w with overlayWidget := some { ov with buttons := moved } }

/-- One iteration of the loop of `positionButtons`. -/
def positionButton (renderSize : QSize) (w : VulkanWidget) (i : Nat) : VulkanWidget :=
  match w.m_overlayButtons.getD i none with
  | some b => moveButton b { x := buttonX renderSize, y := buttonY i } w
  | none => w

/-- The method `VulkanWidget::positionButtons` (lines 496-507). -/
def positionButtons (renderSize : QSize) (w : VulkanWidget) : VulkanWidget :=
  (List.range BUTTON_COUNT).foldl (positionButton renderSize) w

/-- The calls `ui->overlayWidget->show()` (with `raise()`) and
`ui->overlayWidget->hide()` of `updateOverlayGeometry`. -/
def setOverlayVisible (v : Bool) (w : VulkanWidget) : VulkanWidget :=
  match w.overlayWidget with
  | none => w
  | some ov => { w with overlayWidget := some { ov with visible := v } }

/-- Render-surface visibility as line 479 evaluates it:
`m_vulkanWindow && m_vulkanWindow->isVisible()`. -/
def surfaceVisible (q : Sample) (w : VulkanWidget) : Bool :=
  w.m_vulkanWindow && q.vulkanWindowVisible

/-- The condition of lines 478-479. -/
def showCondition (q : Sample) (w : VulkanWidget) : Bool :=
  q.isActiveWindow && q.isVisible && !q.isMinimized && surfaceVisible q w

/-- The method `VulkanWidget::updateOverlayGeometry` (lines 469-494). -/
def updateOverlayGeometry (q : Sample) (w : VulkanWidget) : VulkanWidget :=
  if !w.m_overlayInitialized then w
  else
    match w.overlayWidget with
    | none => w
    | some ov =>
      let renderSize := q.containerSize
      let topLeft := q.containerTopLeft
      let w1 := { w with containerFilterInstalled := true }
      if showCondition q w then
        let rect : QRect := { topLeft := topLeft, size := renderSize }
        let w2 := { w1 with overlayWidget := some { ov with geometry := rect } }
        setOverlayVisible true (positionButtons renderSize w2)
      else
        setOverlayVisible false w1

/-! ## Button construction (lines 584-634) -/

/-- The first `switch` of the creation loop (lines 604-610). -/
def buttonText (i : Nat) : String :=
  match i with
  | 0 => "Screenshot"
  | 1 => "Show All"
  | 2 => "Hide All"
  | 3 => "Toggle Grid"
  | _ => "Button " ++ toString (i + 1)

/-- The second `switch` of the creation loop (lines 617-622): the slot that
the new button's `clicked` is connected to, if any. -/
def buttonSlot (i : Nat) : Option Slot :=
  match i with
  | 0 => some Slot.onScreenshotClicked
  | 1 => some Slot.onShowAllClicked
  | 2 => some Slot.onHideAllClicked
  | 3 => some Slot.onToggleGridClicked
  | _ => none

/-- The button that iteration `i` of the creation loop builds (lines 603-622):
`new QPushButton(buttonText, overlay)`, `setFixedSize`, `connect`. -/
def createdButton (i : Nat) : QPushButton :=
  { text := buttonText i
    fixedSize := some { width := BUTTON_WIDTH, height := BUTTON_HEIGHT }
    pos := { x := 0, y := 0 }
    shown := false
    clicked := (buttonSlot i).toList }

/-- One iteration of the creation loop: the new button becomes the last child
of the overlay (and the last entry of the local list `buttons`). -/
def createButton (ov : OverlayWidget) (i : Nat) : OverlayWidget :=
  { ov with buttons := ov.buttons ++ [createdButton i] }

/-- The call `setFixedSize(BUTTON_WIDTH, BUTTON_HEIGHT)` of line 631. -/
def sized (btn : QPushButton) : QPushButton :=
  { btn with fixedSize := some { width := BUTTON_WIDTH, height := BUTTON_HEIGHT } }

/-- Lines 600-624: create the buttons `buttons.size() .. BUTTON_COUNT - 1`
when fewer than `BUTTON_COUNT` exist. -/
def createMissingButtons (ov : OverlayWidget) : OverlayWidget :=
  if ov.buttons.length < BUTTON_COUNT then
    ((List.range BUTTON_COUNT).drop ov.buttons.length).foldl createButton ov
  else ov

/-- One iteration of the populate loop (lines 627-633). -/
def populateButton (w : VulkanWidget) (i : Nat) : VulkanWidget :=
  match w.overlayWidget with
  | none => w
  | some ov =>
    if i < ov.buttons.length then
      { w with
        m_overlayButtons := w.m_overlayButtons.set i (some i)
        overlayWidget := some { ov with buttons := updateButton sized i ov.buttons } }
    else w

/-- The method `VulkanWidget::initializeButtonArray` (lines 584-634). -/
def initializeButtonArray (w : VulkanWidget) : VulkanWidget :=
  let w0 := { w with m_overlayButtons := List.replicate BUTTON_COUNT none }
  match w0.overlayWidget with
  | none => w0
  | some overlay =>
    let w1 := { w0 with overlayWidget := some (createMissingButtons overlay) }
    (List.range BUTTON_COUNT).foldl populateButton w1

/-! ## Initialisation (lines 392-467) -/

/-- The method `VulkanWidget::setupOverlayProperties` (lines 428-467). -/
def setupOverlayProperties (overlay : OverlayWidget) : OverlayWidget :=
  { overlay with
    hasParent := false
    windowFlags := [WindowFlag.FramelessWindowHint, WindowFlag.Tool,
      WindowFlag.WindowStaysOnTopHint]
    translucentBackground := true
    noSystemBackground := true
    showWithoutActivating := true
    minimumSize := { width := 1, height := 1 }
    maximumSize := { width := QWIDGETSIZE_MAX, height := QWIDGETSIZE_MAX }
    sizePolicyExpanding := true
    styleSheetSet := true
    visible := false }

/-- The method `VulkanWidget::setupOverlayWidget` (lines 404-426). -/
def setupOverlayWidget (w : VulkanWidget) : VulkanWidget :=
  if w.m_overlayInitialized then w
  else
    match w.overlayWidget with
    | none => w
    | some overlay =>
      let w1 := { w with overlayWidget := some (setupOverlayProperties overlay) }
      let w2 := initializeButtonArray w1
      let w3 := scheduleSingleShot 50 Task.firstLayout w2
      { w3 with m_overlayInitialized := true }

/-- The call `m_overlayUpdateTimer->start()`. -/
def startTimer (k : Nat) : List QTimer → List QTimer
  | [] => []
  | t :: ts =>
    match k with
    | 0 => { t with active := true } :: ts
    | k + 1 => t :: startTimer k ts

/-- The method `VulkanWidget::initializeOverlaySystem` (lines 392-402). -/
def initializeOverlaySystem (w : VulkanWidget) : VulkanWidget :=
  let w1 :=
    match w.m_overlayUpdateTimer with
    | some _ => w
    | none =>
      let timer : QTimer := { singleShot := true, interval := 100, active := false }
      { w with
        timers := w.timers ++ [timer]
        m_overlayUpdateTimer := some w.timers.length }
  match w1.m_overlayUpdateTimer with
  | some k => { w1 with timers := startTimer k w1.timers }
  | none => w1

/-- Timer `k` times out: a single-shot timer stops, and the connected slot
`setupOverlayWidget` runs.  A timer that is not running does nothing. -/
def timerTimeout (k : Nat) (w : VulkanWidget) : VulkanWidget :=
  match w.timers[k]? with
  | none => w
  | some t =>
    if t.active then
      let stopped := w.timers.set k { t with active := !t.singleShot }
      setupOverlayWidget { w with timers := stopped }
    else w

/-! ## Window-system handlers (lines 509-582 and 636-685) -/

/-- The method `VulkanWidget::focusOutEvent` (lines 509-515). -/
def focusOutEvent (w : VulkanWidget) : VulkanWidget :=
  hideOverlayIfPresent w

/-- The method `VulkanWidget::focusInEvent` (lines 517-525). -/
def focusInEvent (w : VulkanWidget) : VulkanWidget :=
  if w.m_overlayInitialized then scheduleSingleShot 10 Task.recompute w else w

/-- The method `VulkanWidget::closeEvent` (lines 527-532); `close()` on the
overlay, which has no close handler of its own, hides it. -/
def closeEvent (w : VulkanWidget) : VulkanWidget :=
  hideOverlayIfPresent w

/-- The method `VulkanWidget::resizeEvent` (lines 535-544). -/
def resizeEvent (w : VulkanWidget) : VulkanWidget :=
  if w.m_overlayInitialized then scheduleSingleShot 10 Task.recompute w else w

/-- The method `VulkanWidget::moveEvent` (lines 573-582). -/
def moveEvent (w : VulkanWidget) : VulkanWidget :=
  if w.m_overlayInitialized then scheduleSingleShot 10 Task.recompute w else w

/-- The event types the handlers distinguish; `Other` is any other type. -/
inductive EventType where
  | WindowActivate
  | WindowDeactivate
  | Show
  | Hide
  | Resize
  | WindowStateChange
  | ActivationChange
  | Other
  deriving DecidableEq, Repr

/-- The object an event is filtered for. -/
inductive Watched where
  | self
  | vulkanContainer
  | other
  deriving DecidableEq, Repr

/-- The method `VulkanWidget::changeEvent` (lines 550-571). -/
def changeEvent (t : EventType) (q : Sample) (w : VulkanWidget) : Option VulkanWidget :=
  if t = EventType.WindowStateChange && w.m_overlayInitialized then
    if q.isMinimized || !q.isVisible then hideOverlayUnguarded w
    else some (scheduleSingleShot 50 Task.recompute w)
  else if t = EventType.ActivationChange then
    if w.m_overlayInitialized then some (scheduleSingleShot 10 Task.recompute w)
    else some w
  else some w

/-- The `watched == this` branch of `eventFilter` (lines 639-666). -/
def eventFilterWindow (t : EventType) (q : Sample) (w : VulkanWidget) : VulkanWidget :=
  match t with
  | EventType.WindowActivate => scheduleSingleShot 10 Task.recompute w
  | EventType.WindowDeactivate => hideOverlayIfPresent w
  | EventType.Show =>
    if q.isActiveWindow then scheduleSingleShot 50 Task.recompute w else w
  | EventType.Hide => hideOverlayIfPresent w
  | _ => w

/-- The `watched == ui->vulkanContainer` branch of `eventFilter` (lines 669-681). -/
def eventFilterContainer (t : EventType) (q : Sample) (w : VulkanWidget) :
    Option VulkanWidget :=
  if t = EventType.Resize || t = EventType.Show then
    let size := q.containerSize
    if size.width > 50 && size.height > 50 then
      some (scheduleSingleShot 10 Task.recompute w)
    else hideOverlayUnguarded w
  else some w

/-- The method `VulkanWidget::eventFilter` (lines 636-685). -/
def eventFilter (watched : Watched) (t : EventType) (q : Sample) (w : VulkanWidget) :
    Option VulkanWidget :=
  if w.m_overlayInitialized then
    let w1 := if watched = Watched.self then eventFilterWindow t q w else w
    if watched = Watched.vulkanContainer then eventFilterContainer t q w1 else some w1
  else some w

/-- The lambda connected to `destroyed` in `setupVulkanWindow` (lines 385-389). -/
def vulkanWindowDestroyed (w : VulkanWidget) : VulkanWidget :=
  hideOverlayIfPresent w

/-! ## The event loop -/

/-- Runs the body of a `QTimer::singleShot` lambda. -/
def runTask (t : Task) (q : Sample) (w : VulkanWidget) : VulkanWidget :=
  match t with
  | Task.recompute => updateOverlayGeometry q w
  | Task.firstLayout => scheduleSingleShot 100 Task.recompute (updateOverlayGeometry q w)

/-- The pending single shot number `i` fires: it leaves the schedule and its
lambda runs.  With no such entry nothing happens. -/
def fireSingleShot (i : Nat) (q : Sample) (w : VulkanWidget) : VulkanWidget :=
  match w.singleShots[i]? with
  | none => w
  | some s => runTask s.task q { w with singleShots := w.singleShots.eraseIdx i }

/-- Everything the event loop can run on the widget. -/
inductive Op where
  | initializeOverlaySystem
  | timerTimeout (k : Nat)
  | setupOverlayWidget
  | updateOverlayGeometry
  | fireSingleShot (i : Nat)
  | focusOutEvent
  | focusInEvent
  | closeEvent
  | resizeEvent
  | moveEvent
  | changeEvent (t : EventType)
  | eventFilter (watched : Watched) (t : EventType)
  | vulkanWindowDestroyed
  deriving DecidableEq, Repr

/-- Runs one operation against the sampled toolkit state; `none` is a null
dereference of `ui->overlayWidget`. -/
def step (op : Op) (q : Sample) (w : VulkanWidget) : Option VulkanWidget :=
  match op with
  | Op.initializeOverlaySystem => some (initializeOverlaySystem w)
  | Op.timerTimeout k => some (timerTimeout k w)
  | Op.setupOverlayWidget => some (setupOverlayWidget w)
  | Op.updateOverlayGeometry => some (updateOverlayGeometry q w)
  | Op.fireSingleShot i => some (fireSingleShot i q w)
  | Op.focusOutEvent => some (focusOutEvent w)
  | Op.focusInEvent => some (focusInEvent w)
  | Op.closeEvent => some (closeEvent w)
  | Op.resizeEvent => some (resizeEvent w)
  | Op.moveEvent => some (moveEvent w)
  | Op.changeEvent t => changeEvent t q w
  | Op.eventFilter watched t => eventFilter watched t q w
  | Op.vulkanWindowDestroyed => some (vulkanWindowDestroyed w)

/-! ## Observations -/

/-- Whether the overlay is on screen; a missing overlay is not. -/
def overlayShown (w : VulkanWidget) : Bool :=
  match w.overlayWidget with
  | some ov => ov.visible
  | none => false

/-- The rectangle the overlay holds. -/
def overlayRect (w : VulkanWidget) : Option QRect :=
  w.overlayWidget.map (fun ov => ov.geometry)

/-- The button `m_overlayButtons[i]` points to, if the pointer is not null. -/
def handleButton (w : VulkanWidget) (i : Nat) : Option QPushButton :=
  match w.overlayWidget, w.m_overlayButtons.getD i none with
  | some ov, some k => ov.buttons[k]?
  | _, _ => none

/-- The positions of all button children of the overlay, in child order. -/
def buttonPositions (w : VulkanWidget) : List QPoint :=
  match w.overlayWidget with
  | some ov => ov.buttons.map (fun b => b.pos)
  | none => []

/-- Apply `f` to the overlay, when there is one. -/
def mapOverlay (f : OverlayWidget → OverlayWidget) (w : VulkanWidget) : VulkanWidget :=
  { w with overlayWidget := w.overlayWidget.map f }

/-! ## The button loop on the child list

`positionButtons` only touches the child list of the overlay; `placeButtons`
is that effect, used to reason about the loop. -/

/-- What `move(x, y); raise(); show();` does to a button in iteration `i`. -/
def placed (renderSize : QSize) (i : Nat) (btn : QPushButton) : QPushButton :=
  { btn with pos := { x := buttonX renderSize, y := buttonY i }, shown := true }

/-- The effect of iteration `i` of `positionButtons` on the child list. -/
def placeStep (renderSize : QSize) (hs : List (Option Nat)) (bs : List QPushButton)
    (i : Nat) : List QPushButton :=
  match hs.getD i none with
  | some b => updateButton (placed renderSize i) b bs
  | none => bs

/-- The effect of `positionButtons` on the child list. -/
def placeButtons (renderSize : QSize) (hs : List (Option Nat)) (bs : List QPushButton) :
    List QPushButton :=
  (List.range BUTTON_COUNT).foldl (placeStep renderSize hs) bs

/-- The effect of iteration `i` of `positionButtons` on child `j`. -/
def placeAt (renderSize : QSize) (hs : List (Option Nat)) (j i : Nat)
    (btn : QPushButton) : QPushButton :=
  if hs.getD i none = some j then placed renderSize i btn else btn

/-- The effect of the whole loop of `positionButtons` on child `j`. -/
def placeAll (renderSize : QSize) (hs : List (Option Nat)) (j : Nat)
    (btn : QPushButton) : QPushButton :=
  placeAt renderSize hs j 3 (placeAt renderSize hs j 2 (placeAt renderSize hs j 1
    (placeAt renderSize hs j 0 btn)))

/-- The child list `initializeButtonArray` leaves, given the one it finds:
the first four children sized, the missing ones appended. -/
def adopted (bs : List QPushButton) : List QPushButton :=
  match bs with
  | [] => [createdButton 0, createdButton 1, createdButton 2, createdButton 3]
  | [a] => [sized a, createdButton 1, createdButton 2, createdButton 3]
  | [a, b] => [sized a, sized b, createdButton 2, createdButton 3]
  | [a, b, c] => [sized a, sized b, sized c, createdButton 3]
  | a :: b :: c :: d :: rest => sized a :: sized b :: sized c :: sized d :: rest

/-! ## Example states -/

/-- An overlay as the form designer leaves it, with the given button children. -/
def overlayWith (bs : List QPushButton) : OverlayWidget :=
  { hasParent := true
    windowFlags := []
    translucentBackground := false
    noSystemBackground := false
    showWithoutActivating := false
    minimumSize := { width := 0, height := 0 }
    maximumSize := { width := QWIDGETSIZE_MAX, height := QWIDGETSIZE_MAX }
    sizePolicyExpanding := false
    styleSheetSet := false
    geometry := { topLeft := { x := 0, y := 0 }, size := { width := 100, height := 30 } }
    visible := false
    buttons := bs }

/-- The widget before the overlay is set up, with the given overlay. -/
def freshWidget (ov : Option OverlayWidget) : VulkanWidget :=
  { overlayWidget := ov
    m_vulkanWindow := true
    m_overlayButtons := List.replicate BUTTON_COUNT none
    m_overlayInitialized := false
    timers := []
    m_overlayUpdateTimer := none
    containerFilterInstalled := false
    singleShots := [] }

/-- The widget after `setupOverlayWidget` ran on an overlay without buttons. -/
def readyWidget : VulkanWidget :=
  setupOverlayWidget (freshWidget (some (overlayWith [])))

/-- A button from the form designer: its own label, nothing connected. -/
def designerButton (label : String) : QPushButton :=
  { text := label
    fixedSize := none
    pos := { x := 5, y := 5 }
    shown := false
    clicked := [] }

/-- A sample with the given flags and an 800x600 surface at (100, 80). -/
def sampleOf (active visible minimized surface : Bool) : Sample :=
  { isActiveWindow := active
    isVisible := visible
    isMinimized := minimized
    vulkanWindowVisible := surface
    containerSize := { width := 800, height := 600 }
    containerTopLeft := { x := 100, y := 80 } }

/-! ## Notifications -/

/-- The event kinds the overlay controller is notified of. -/
inductive EventKind where
  | Activate
  | Deactivate
  | Show
  | Hide
  | Resize
  | Move
  | StateChange
  | SurfaceResize
  | SurfaceShow
  deriving DecidableEq, Repr

/-- The handler of the source that receives each event kind: the four host
window cases of `eventFilter` (lines 641-662), `resizeEvent`, `moveEvent`,
the `WindowStateChange` case of `changeEvent`, and the `Resize` and `Show`
cases of the `ui->vulkanContainer` branch of `eventFilter` (line 670). -/
def notify (e : EventKind) (q : Sample) (w : VulkanWidget) : Option VulkanWidget :=
  match e with
  | EventKind.Activate => eventFilter Watched.self EventType.WindowActivate q w
  | EventKind.Deactivate => eventFilter Watched.self EventType.WindowDeactivate q w
  | EventKind.Show => eventFilter Watched.self EventType.Show q w
  | EventKind.Hide => eventFilter Watched.self EventType.Hide q w
  | EventKind.Resize => some (resizeEvent w)
  | EventKind.Move => some (moveEvent w)
  | EventKind.StateChange => changeEvent EventType.WindowStateChange q w
  | EventKind.SurfaceResize => eventFilter Watched.vulkanContainer EventType.Resize q w
  | EventKind.SurfaceShow => eventFilter Watched.vulkanContainer EventType.Show q w

/-- The operations that are window-system handlers of the widget. -/
def isHandler (op : Op) : Bool :=
  match op with
  | Op.focusOutEvent => true
  | Op.focusInEvent => true
  | Op.closeEvent => true
  | Op.resizeEvent => true
  | Op.moveEvent => true
  | Op.changeEvent _ => true
  | Op.eventFilter _ _ => true
  | _ => false

/-- The single shot a handler registers: a recompute after `delay`. -/
def recomputeAfter (delay : Nat) : SingleShot :=
  { delay := delay, task := Task.recompute }

/-- A sample of an active, visible, not minimized host window with a visible
render surface of the given size at (100, 80). -/
def sampleSized (width height : Int) : Sample :=
  { isActiveWindow := true
    isVisible := true
    isMinimized := false
    vulkanWindowVisible := true
    containerSize := { width := width, height := height }
    containerTopLeft := { x := 100, y := 80 } }

/-! ## Settling and reachability -/

/-- Runs an operation and then lets the single shot fire that the operation
registered, if it registered one, against the same sampled state.  A handler
appends at most one entry to the schedule, at the position
`w.singleShots.length`; with no entry there `fireSingleShot` does nothing. -/
def settle (op : Op) (q : Sample) (w : VulkanWidget) : Option VulkanWidget :=
  (step op q w).map (fireSingleShot w.singleShots.length q)

/-- The number of button children of the overlay, when there is one. -/
def buttonCount (w : VulkanWidget) : Option Nat :=
  w.overlayWidget.map (fun ov => ov.buttons.length)

/-- A widget as the constructor leaves it (lines 141-176): the overlay is not
initialised and nothing is scheduled.  The overlay pointer, the button array
(not yet written), the window pointer and the set-up timer started by
`setupVulkanWindow` are whatever they are. -/
def constructed (w : VulkanWidget) : Prop :=
  w.m_overlayInitialized = false ∧ w.singleShots = []

/-- The states the widget can be in: a constructed state, followed by any
operations the event loop runs, each against any sampled toolkit state. -/
inductive Reachable : VulkanWidget → Prop where
  | init (w : VulkanWidget) : constructed w → Reachable w
  | next (op : Op) (q : Sample) (w w1 : VulkanWidget) :
      Reachable w → step op q w = some w1 → Reachable w1

/-- The overlay is present with at least four buttons and the handles point to
its first four children. -/
def wired (w : VulkanWidget) : Prop :=
  w.m_overlayButtons = [some 0, some 1, some 2, some 3] ∧
    ∃ n, buttonCount w = some n ∧ BUTTON_COUNT ≤ n

/-- The operations the overlay controller offers: set-up, a recompute, the
window-system handlers and the two tear-down paths. -/
def isControllerOp (op : Op) : Bool :=
  match op with
  | Op.setupOverlayWidget => true
  | Op.updateOverlayGeometry => true
  | Op.vulkanWindowDestroyed => true
  | _ => isHandler op

/-! ## Button rectangles -/

/-- The rectangle a button occupies in the coordinates of the overlay: its
position and its fixed size. -/
def buttonRect (b : QPushButton) : QRect :=
  { topLeft := b.pos, size := b.fixedSize.getD { width := 0, height := 0 } }

/-- Whether `inner` lies wholly inside `outer`. -/
def within (inner outer : QRect) : Prop :=
  outer.topLeft.x ≤ inner.topLeft.x ∧
    inner.topLeft.x + inner.size.width ≤ outer.topLeft.x + outer.size.width ∧
    outer.topLeft.y ≤ inner.topLeft.y ∧
    inner.topLeft.y + inner.size.height ≤ outer.topLeft.y + outer.size.height

/-- The overlay rectangle of size `renderSize` in its own coordinates. -/
def overlayLocalRect (renderSize : QSize) : QRect :=
  { topLeft := { x := 0, y := 0 }, size := renderSize }

/-! ## Outliner and primitive registry (lines 208-322)

The rows of `ui->outlinerTree` and the map `m_primitiveItems` sit beside the
overlay state in the same widget.  A `QTreeWidgetItem*` is the index of its
row: rows are only appended, or removed all at once together with the map.
The renderer lives outside these files: what a handler needs from it, whether
it exists and which id `addPrimitive` returns, is an argument.  The slot
`on_outlinerTree_itemChanged` only calls the renderer and is left out. -/

/-- A top-level row of the outliner: its text, the flag `ItemIsUserCheckable`
and the `Qt::UserRole` datum of column 0 read as a boolean. -/
structure QTreeWidgetItem where
  text : String
  userCheckable : Bool
  visible : Bool
  deriving DecidableEq, Repr

/-- The outliner rows and the primitive registry of the widget. -/
structure Scene where
  outlinerTree : List QTreeWidgetItem
  m_primitiveItems : List (Nat × Int)
  deriving DecidableEq, Repr

/-- The assignment `map[key] = value` of `QMap`: overwrite the entry of the
key, or add one. -/
def qmapAssign (key : Nat) (value : Int) : List (Nat × Int) → List (Nat × Int)
  | [] => [(key, value)]
  | (k, v) :: rest =>
    if k = key then (key, value) :: rest else (k, v) :: qmapAssign key value rest

/-- The body shared by `onCubeClicked`, `onSphereClicked`, `onCylinderClicked`
and `onPyramidClicked` (lines 208-288), which differ in the primitive built and
in the label.  `renderer` is `none` when `m_vulkanWindow` or its renderer is
missing, else the id that `addPrimitive` returns. -/
def addPrimitiveRow (label : String) (renderer : Option Int) (s : Scene) : Scene :=
  match renderer with
  | none => s
  | some id =>
    let item : QTreeWidgetItem := { text := label, userCheckable := false, visible := true }
    { outlinerTree := s.outlinerTree ++ [item]
      m_primitiveItems := qmapAssign s.outlinerTree.length id s.m_primitiveItems }

/-- The slot `VulkanWidget::onCubeClicked` (lines 208-227). -/
def onCubeClicked (renderer : Option Int) (s : Scene) : Scene :=
  addPrimitiveRow "Cube" renderer s

/-- The slot `VulkanWidget::onSphereClicked` (lines 229-248). -/
def onSphereClicked (renderer : Option Int) (s : Scene) : Scene :=
  addPrimitiveRow "Sphere" renderer s

/-- The slot `VulkanWidget::onCylinderClicked` (lines 250-269). -/
def onCylinderClicked (renderer : Option Int) (s : Scene) : Scene :=
  addPrimitiveRow "Cylinder" renderer s

/-- The slot `VulkanWidget::onPyramidClicked` (lines 271-288). -/
def onPyramidClicked (renderer : Option Int) (s : Scene) : Scene :=
  addPrimitiveRow "Pyramid" renderer s

/-- The slot `VulkanWidget::onClearClicked` (lines 290-295). -/
def onClearClicked (rendererPresent : Bool) (s : Scene) : Scene :=
  if !rendererPresent then s
  else { outlinerTree := [], m_primitiveItems := [] }

/-- The call `topLevelItem(i)->setData(0, Qt::UserRole, v)`. -/
def setRowVisible (v : Bool) : Nat → List QTreeWidgetItem → List QTreeWidgetItem
  | _, [] => []
  | 0, r :: rs => { r with visible := v } :: rs
  | i + 1, r :: rs => r :: setRowVisible v i rs

/-- The loop shared by `onShowAllClicked` and `onHideAllClicked`. -/
def setAllVisible (v : Bool) (s : Scene) : Scene :=
  (List.range s.outlinerTree.length).foldl
    (fun t i => { t with outlinerTree := setRowVisible v i t.outlinerTree }) s

/-- The slot `VulkanWidget::onShowAllClicked` (lines 310-315). -/
def onShowAllClicked (s : Scene) : Scene :=
  setAllVisible true s

/-- The slot `VulkanWidget::onHideAllClicked` (lines 317-322). -/
def onHideAllClicked (s : Scene) : Scene :=
  setAllVisible false s

/-- The add and clear actions of the tool bar, each with what the renderer
answers when the action runs. -/
inductive SceneAction where
  | cube (renderer : Option Int)
  | sphere (renderer : Option Int)
  | cylinder (renderer : Option Int)
  | pyramid (renderer : Option Int)
  | clear (rendererPresent : Bool)
  deriving DecidableEq, Repr

/-- Runs the slot of an action. -/
def runSceneAction (s : Scene) (a : SceneAction) : Scene :=
  match a with
  | SceneAction.cube r => onCubeClicked r s
  | SceneAction.sphere r => onSphereClicked r s
  | SceneAction.cylinder r => onCylinderClicked r s
  | SceneAction.pyramid r => onPyramidClicked r s
  | SceneAction.clear p => onClearClicked p s

/-- The registry has one entry per row: its keys are the rows, in order. -/
def registryMatches (s : Scene) : Prop :=
  s.m_primitiveItems.map Prod.fst = List.range s.outlinerTree.length

/-- The scene of a new widget: no rows, no registry entries. -/
def emptyScene : Scene :=
  { outlinerTree := [], m_primitiveItems := [] }

/-! ## EyeIconDelegate (lines 107-136) -/

/-- The toolkit's `QRect::right()`, which is `x + width - 1`. -/
def QRect.right (r : QRect) : Int :=
  r.topLeft.x + r.size.width - 1

/-- The toolkit's `QRect::bottom()`, which is `y + height - 1`. -/
def QRect.bottom (r : QRect) : Int :=
  r.topLeft.y + r.size.height - 1

/-- The toolkit's `QRect::contains(p)`: edges included; a rectangle stored
with its corners swapped is read the other way round. -/
def QRect.contains (r : QRect) (p : QPoint) : Bool :=
  let l := if r.right < r.topLeft.x - 1 then r.right else r.topLeft.x
  let rr := if r.right < r.topLeft.x - 1 then r.topLeft.x else r.right
  let t := if r.bottom < r.topLeft.y - 1 then r.bottom else r.topLeft.y
  let b := if r.bottom < r.topLeft.y - 1 then r.topLeft.y else r.bottom
  decide (l ≤ p.x) && decide (p.x ≤ rr) && decide (t ≤ p.y) && decide (p.y ≤ b)

/-- The `iconRect` of `EyeIconDelegate::paint` (lines 108-112); `/` of the
source truncates toward zero. -/
def paintIconRect (optionRect : QRect) : QRect :=
  let iconSize : Int := 16
  let padding : Int := 5
  { topLeft :=
      { x := optionRect.right - iconSize - padding
        y := optionRect.topLeft.y + Int.tdiv (optionRect.size.height - iconSize) 2 }
    size := { width := iconSize, height := iconSize } }

/-- The `iconRect` of `EyeIconDelegate::editorEvent` (lines 122-126). -/
def editorEventIconRect (optionRect : QRect) : QRect :=
  let iconSize : Int := 16
  let padding : Int := 5
  { topLeft :=
      { x := optionRect.right - iconSize - padding
        y := optionRect.topLeft.y + Int.tdiv (optionRect.size.height - iconSize) 2 }
    size := { width := iconSize, height := iconSize } }

/-- The event types `editorEvent` distinguishes. -/
inductive EditorEventType where
  | MouseButtonRelease
  | Other
  deriving DecidableEq, Repr

/-- The method `EyeIconDelegate::editorEvent` (lines 117-136) on the row of
`index`: `currentState` is the row's `Qt::UserRole` flag, `base` what
`QStyledItemDelegate::editorEvent` returns (it does not write that role).  The
result is the returned boolean and the flag afterwards. -/
def editorEvent (t : EditorEventType) (pos : QPoint) (optionRect : QRect) (base : Bool)
    (currentState : Bool) : Bool × Bool :=
  if t = EditorEventType.MouseButtonRelease then
    if (editorEventIconRect optionRect).contains pos then (true, !currentState)
    else (base, currentState)
  else (base, currentState)

/-! ## Lemmas on the button loop -/

theorem getElem?_updateButton (f : QPushButton → QPushButton) (k : Nat)
    (bs : List QPushButton) (j : Nat) :
    (updateButton f k bs)[j]? = if j = k then bs[j]?.map f else bs[j]? := by
  induction bs generalizing k j with
  | nil => simp [updateButton]
  | cons b bs ih =>
    cases k with
    | zero =>
      cases j with
      | zero => simp [updateButton]
      | succ j => simp [updateButton]
    | succ k =>
      cases j with
      | zero => simp [updateButton]
      | succ j => simp [updateButton, ih]

theorem length_updateButton (f : QPushButton → QPushButton) (k : Nat)
    (bs : List QPushButton) : (updateButton f k bs).length = bs.length := by
  induction bs generalizing k with
  | nil => simp [updateButton]
  | cons b bs ih =>
    cases k with
    | zero => simp [updateButton]
    | succ k => simp [updateButton, ih]

theorem getElem?_placeStep (rs : QSize) (hs : List (Option Nat)) (bs : List QPushButton)
    (i j : Nat) : (placeStep rs hs bs i)[j]? = bs[j]?.map (placeAt rs hs j i) := by
  unfold placeStep placeAt
  cases h : hs.getD i none with
  | none => simp
  | some b =>
    simp only [getElem?_updateButton]
    by_cases hj : j = b
    · subst hj; simp
    · have : ¬ b = j := fun e => hj e.symm
      simp [hj, this]

theorem getElem?_placeButtons (rs : QSize) (hs : List (Option Nat)) (bs : List QPushButton)
    (j : Nat) :
    (placeButtons rs hs bs)[j]? =
      bs[j]?.map (fun b => placeAt rs hs j 3 (placeAt rs hs j 2 (placeAt rs hs j 1
        (placeAt rs hs j 0 b)))) := by
  have h : List.range BUTTON_COUNT = [0, 1, 2, 3] := by decide
  unfold placeButtons
  rw [h]
  simp only [List.foldl_cons, List.foldl_nil, getElem?_placeStep, Option.map_map]
  rfl

theorem placeAt_placeAt_absorb (rs : QSize) (hs : List (Option Nat)) (j : Nat)
    (b : QPushButton) :
    placeAt rs hs j 3 (placeAt rs hs j 2 (placeAt rs hs j 1 (placeAt rs hs j 0
      (placeAt rs hs j 3 (placeAt rs hs j 2 (placeAt rs hs j 1 (placeAt rs hs j 0 b))))))) =
    placeAt rs hs j 3 (placeAt rs hs j 2 (placeAt rs hs j 1 (placeAt rs hs j 0 b))) := by
  unfold placeAt
  split_ifs <;> rfl

theorem placeButtons_idem (rs : QSize) (hs : List (Option Nat)) (bs : List QPushButton) :
    placeButtons rs hs (placeButtons rs hs bs) = placeButtons rs hs bs := by
  apply List.ext_getElem?
  intro j
  rw [getElem?_placeButtons, getElem?_placeButtons]
  cases bs[j]? with
  | none => rfl
  | some b => simp [placeAt_placeAt_absorb]

theorem foldl_positionButton (rs : QSize) (l : List Nat) (w : VulkanWidget) :
    l.foldl (positionButton rs) w =
      mapOverlay
        (fun ov => { ov with buttons := l.foldl (placeStep rs w.m_overlayButtons) ov.buttons })
        w := by
  induction l generalizing w with
  | nil => cases w with | mk o a b c d e f g => cases o <;> rfl
  | cons i l ih =>
    rw [List.foldl_cons, ih]
    cases w with
    | mk o a b c d e f g =>
      cases o with
      | none =>
        simp only [positionButton, moveButton]
        cases b.getD i none <;> rfl
      | some ov =>
        simp only [positionButton, moveButton, placeStep, List.foldl_cons]
        cases b.getD i none <;> rfl

theorem positionButtons_eq (rs : QSize) (w : VulkanWidget) :
    positionButtons rs w =
      mapOverlay
        (fun ov => { ov with buttons := placeButtons rs w.m_overlayButtons ov.buttons }) w :=
  foldl_positionButton rs (List.range BUTTON_COUNT) w

theorem updateOverlayGeometry_show (q : Sample) (w : VulkanWidget) (ov : OverlayWidget)
    (hReady : w.m_overlayInitialized = true) (hOv : w.overlayWidget = some ov)
    (hShow : showCondition q w = true) :
    updateOverlayGeometry q w =
      { w with
        containerFilterInstalled := true
        overlayWidget := some { ov with
          geometry := { topLeft := q.containerTopLeft, size := q.containerSize }
          visible := true
          buttons := placeButtons q.containerSize w.m_overlayButtons ov.buttons } } := by
  cases w with
  | mk o a b c d e f g =>
    simp only at hReady hOv
    subst hReady hOv
    simp only [updateOverlayGeometry, hShow, positionButtons_eq, mapOverlay, setOverlayVisible]
    rfl

theorem updateOverlayGeometry_hide (q : Sample) (w : VulkanWidget) (ov : OverlayWidget)
    (hReady : w.m_overlayInitialized = true) (hOv : w.overlayWidget = some ov)
    (hShow : showCondition q w = false) :
    updateOverlayGeometry q w =
      { w with
        containerFilterInstalled := true
        overlayWidget := some { ov with visible := false } } := by
  cases w with
  | mk o a b c d e f g =>
    simp only at hReady hOv
    subst hReady hOv
    simp only [updateOverlayGeometry, hShow, setOverlayVisible]
    rfl

theorem updateOverlayGeometry_notReady (q : Sample) (w : VulkanWidget)
    (h : w.m_overlayInitialized = false) : updateOverlayGeometry q w = w := by
  simp [updateOverlayGeometry, h]

theorem updateOverlayGeometry_noOverlay (q : Sample) (w : VulkanWidget)
    (h : w.overlayWidget = none) : updateOverlayGeometry q w = w := by
  unfold updateOverlayGeometry
  split
  · rfl
  · simp [h]

theorem getElem?_placeButtons_of_unique (rs : QSize) (hs : List (Option Nat))
    (bs : List QPushButton) (i k : Nat) (hi : i < BUTTON_COUNT)
    (hk : hs.getD i none = some k)
    (hne : ∀ j, j < BUTTON_COUNT → j ≠ i → hs.getD j none ≠ some k) :
    (placeButtons rs hs bs)[k]? = bs[k]?.map (placed rs i) := by
  rw [getElem?_placeButtons]
  have h0 := hne 0 (by decide)
  have h1 := hne 1 (by decide)
  have h2 := hne 2 (by decide)
  have h3 := hne 3 (by decide)
  have hcases : i = 0 ∨ i = 1 ∨ i = 2 ∨ i = 3 := by
    unfold BUTTON_COUNT at hi
    omega
  congr 1
  funext b
  unfold placeAt
  rcases hcases with h | h | h | h <;> subst h
  · rw [if_pos hk, if_neg (h1 (by decide)), if_neg (h2 (by decide)), if_neg (h3 (by decide))]
  · rw [if_neg (h0 (by decide)), if_pos hk, if_neg (h2 (by decide)), if_neg (h3 (by decide))]
  · rw [if_neg (h0 (by decide)), if_neg (h1 (by decide)), if_pos hk, if_neg (h3 (by decide))]
  · rw [if_neg (h0 (by decide)), if_neg (h1 (by decide)), if_neg (h2 (by decide)), if_pos hk]

/-! ## Claims on the recompute -/

/-- C2: for every overlay width and every index `i` in 0..3 whose handle points
to a button of the overlay that no other handle points to, `positionButtons`
leaves that button at `x = w - 120 - 10`, `y = 10 + i * (40 + 10)`; the `x` is
not clamped.  For `w = 300` this is `x = 170`, `y = 10, 60, 110, 160`. -/
theorem positionButtons_formula (rs : QSize) (w : VulkanWidget) (ov : OverlayWidget)
    (i k : Nat) (hi : i < BUTTON_COUNT) (hOv : w.overlayWidget = some ov)
    (hk : w.m_overlayButtons.getD i none = some k) (hlt : k < ov.buttons.length)
    (hne : ∀ j, j < BUTTON_COUNT → j ≠ i → w.m_overlayButtons.getD j none ≠ some k) :
    (handleButton (positionButtons rs w) i).map (fun b => b.pos) =
        some { x := rs.width - 120 - 10, y := 10 + (i : Int) * (40 + 10) } ∧
      (rs.width = 300 → (handleButton (positionButtons rs w) i).map (fun b => b.pos) =
        some { x := 170, y := [10, 60, 110, 160].getD i 0 }) := by
  have hpos : (handleButton (positionButtons rs w) i).map (fun b => b.pos) =
      some { x := rs.width - 120 - 10, y := 10 + (i : Int) * (40 + 10) } := by
    rw [positionButtons_eq]
    simp only [handleButton, mapOverlay, hOv, Option.map_some', hk]
    rw [getElem?_placeButtons_of_unique rs _ _ i k hi hk hne]
    rw [List.getElem?_eq_getElem hlt]
    rfl
  refine ⟨hpos, ?_⟩
  intro h300
  rw [hpos, h300]
  have hcases : i = 0 ∨ i = 1 ∨ i = 2 ∨ i = 3 := by
    unfold BUTTON_COUNT at hi
    omega
  rcases hcases with h | h | h | h <;> subst h <;> rfl

/-- C2 on a ready widget: button 2 at overlay width 300 and at width 100,
where `x` is negative. -/
theorem positionButtons_formula_witness :
    (handleButton (positionButtons { width := 300, height := 200 } readyWidget) 2).map
        (fun b => b.pos) = some { x := 170, y := 110 } ∧
      (handleButton (positionButtons { width := 100, height := 200 } readyWidget) 2).map
        (fun b => b.pos) = some { x := -30, y := 110 } :=
  ⟨((positionButtons_formula { width := 300, height := 200 } readyWidget
      (setupOverlayProperties (createMissingButtons (overlayWith []))) 2 2 (by decide)
      (by decide) (by decide) (by decide) (by decide)).2 rfl),
   ((positionButtons_formula { width := 100, height := 200 } readyWidget
      (setupOverlayProperties (createMissingButtons (overlayWith []))) 2 2 (by decide)
      (by decide) (by decide) (by decide) (by decide)).1)⟩

/-- C3: whenever a recompute in the Ready state leaves the overlay shown, the
rectangle of the overlay is the sampled global top-left of the render surface
with the sampled size of the render surface. -/
theorem updateOverlayGeometry_rect (q : Sample) (w : VulkanWidget)
    (hReady : w.m_overlayInitialized = true)
    (hShown : overlayShown (updateOverlayGeometry q w) = true) :
    overlayRect (updateOverlayGeometry q w) =
      some { topLeft := q.containerTopLeft, size := q.containerSize } := by
  cases hov : w.overlayWidget with
  | none =>
    rw [updateOverlayGeometry_noOverlay q w hov] at hShown
    simp [overlayShown, hov] at hShown
  | some ov =>
    cases hShow : showCondition q w with
    | true =>
      rw [updateOverlayGeometry_show q w ov hReady hov hShow]
      rfl
    | false =>
      rw [updateOverlayGeometry_hide q w ov hReady hov hShow] at hShown
      simp [overlayShown] at hShown

/-- C3 on a ready widget with an 800x600 surface at (100, 80). -/
theorem updateOverlayGeometry_rect_witness :
    overlayRect (updateOverlayGeometry (sampleOf true true false true) readyWidget) =
      some { topLeft := { x := 100, y := 80 }, size := { width := 800, height := 600 } } :=
  updateOverlayGeometry_rect (sampleOf true true false true) readyWidget (by decide) (by decide)

/-- C4: running `updateOverlayGeometry` a second time against the same sampled
state changes nothing: the whole widget state, and with it the overlay
rectangle, the overlay visibility and the button positions, is the one the
first run left. -/
theorem updateOverlayGeometry_idempotent (q : Sample) (w : VulkanWidget) :
    updateOverlayGeometry q (updateOverlayGeometry q w) = updateOverlayGeometry q w ∧
      overlayRect (updateOverlayGeometry q (updateOverlayGeometry q w)) =
        overlayRect (updateOverlayGeometry q w) ∧
      overlayShown (updateOverlayGeometry q (updateOverlayGeometry q w)) =
        overlayShown (updateOverlayGeometry q w) ∧
      buttonPositions (updateOverlayGeometry q (updateOverlayGeometry q w)) =
        buttonPositions (updateOverlayGeometry q w) := by
  have key : updateOverlayGeometry q (updateOverlayGeometry q w) =
      updateOverlayGeometry q w := by
    cases hReady : w.m_overlayInitialized with
    | false =>
      rw [updateOverlayGeometry_notReady q w hReady, updateOverlayGeometry_notReady q w hReady]
    | true =>
      cases hov : w.overlayWidget with
      | none =>
        rw [updateOverlayGeometry_noOverlay q w hov, updateOverlayGeometry_noOverlay q w hov]
      | some ov =>
        cases hShow : showCondition q w with
        | true =>
          have h1 := updateOverlayGeometry_show q w ov hReady hov hShow
          have hR : (updateOverlayGeometry q w).m_overlayInitialized = true := by
            rw [h1]; exact hReady
          have hO : (updateOverlayGeometry q w).overlayWidget = some { ov with
              geometry := { topLeft := q.containerTopLeft, size := q.containerSize }
              visible := true
              buttons := placeButtons q.containerSize w.m_overlayButtons ov.buttons } := by
            rw [h1]
          have hS : showCondition q (updateOverlayGeometry q w) = true := by
            rw [h1]; exact hShow
          rw [updateOverlayGeometry_show q (updateOverlayGeometry q w) _ hR hO hS, h1]
          simp only [placeButtons_idem]
        | false =>
          have h1 := updateOverlayGeometry_hide q w ov hReady hov hShow
          have hR : (updateOverlayGeometry q w).m_overlayInitialized = true := by
            rw [h1]; exact hReady
          have hO : (updateOverlayGeometry q w).overlayWidget =
              some { ov with visible := false } := by
            rw [h1]
          have hS : showCondition q (updateOverlayGeometry q w) = false := by
            rw [h1]; exact hShow
          rw [updateOverlayGeometry_hide q (updateOverlayGeometry q w) _ hR hO hS, h1]
  rw [key]
  exact ⟨rfl, rfl, rfl, rfl⟩

/-! ## Lemmas on button construction -/

theorem initializeButtonArray_noOverlay (w : VulkanWidget) (h : w.overlayWidget = none) :
    initializeButtonArray w = { w with m_overlayButtons := [none, none, none, none] } := by
  cases w with
  | mk o a b c d e f g =>
    simp only at h
    subst h
    rfl

theorem initializeButtonArray_some (w : VulkanWidget) (ov : OverlayWidget)
    (h : w.overlayWidget = some ov) :
    initializeButtonArray w =
      { w with
        m_overlayButtons := [some 0, some 1, some 2, some 3]
        overlayWidget := some { ov with buttons := adopted ov.buttons } } := by
  cases w with
  | mk o a b c d e f g =>
    simp only at h
    subst h
    cases ov with
    | mk p1 p2 p3 p4 p5 p6 p7 p8 p9 p10 p11 bs =>
      match bs with
      | [] => rfl
      | [_] => rfl
      | [_, _] => rfl
      | [_, _, _] => rfl
      | x :: y :: z :: u :: rest =>
        have hlen : ¬ (x :: y :: z :: u :: rest).length < BUTTON_COUNT := by
          simp [BUTTON_COUNT]
        have hr : List.range BUTTON_COUNT = [0, 1, 2, 3] := by decide
        unfold initializeButtonArray
        simp only [createMissingButtons, if_neg hlen, hr, List.foldl_cons, List.foldl_nil]
        simp [populateButton, updateButton, adopted, BUTTON_COUNT]

theorem sized_sized (b : QPushButton) : sized (sized b) = sized b := rfl

theorem sized_createdButton (i : Nat) : sized (createdButton i) = createdButton i := rfl

theorem adopted_adopted (bs : List QPushButton) : adopted (adopted bs) = adopted bs := by
  match bs with
  | [] => rfl
  | [_] => rfl
  | [_, _] => rfl
  | [_, _, _] => rfl
  | _ :: _ :: _ :: _ :: _ => rfl

theorem length_adopted (bs : List QPushButton) :
    (adopted bs).length = max bs.length BUTTON_COUNT := by
  match bs with
  | [] => rfl
  | [_] => rfl
  | [_, _] => rfl
  | [_, _, _] => rfl
  | _ :: _ :: _ :: _ :: rest => simp [adopted, BUTTON_COUNT]

theorem getElem?_adopted_old (bs : List QPushButton) (i : Nat) (hi : i < BUTTON_COUNT)
    (hlt : i < bs.length) : (adopted bs)[i]? = bs[i]?.map sized := by
  have hcases : i = 0 ∨ i = 1 ∨ i = 2 ∨ i = 3 := by
    unfold BUTTON_COUNT at hi
    omega
  match bs, hlt with
  | [_], hlt =>
    simp only [List.length_cons, List.length_nil] at hlt
    rcases hcases with h | h | h | h <;> subst h <;> first | rfl | omega
  | [_, _], hlt =>
    simp only [List.length_cons, List.length_nil] at hlt
    rcases hcases with h | h | h | h <;> subst h <;> first | rfl | omega
  | [_, _, _], hlt =>
    simp only [List.length_cons, List.length_nil] at hlt
    rcases hcases with h | h | h | h <;> subst h <;> first | rfl | omega
  | _ :: _ :: _ :: _ :: _, _ =>
    rcases hcases with h | h | h | h <;> subst h <;> simp [adopted]

theorem getElem?_adopted_new (bs : List QPushButton) (i : Nat) (hi : i < BUTTON_COUNT)
    (hge : bs.length ≤ i) : (adopted bs)[i]? = some (createdButton i) := by
  have hcases : i = 0 ∨ i = 1 ∨ i = 2 ∨ i = 3 := by
    unfold BUTTON_COUNT at hi
    omega
  match bs, hge with
  | [], _ => rcases hcases with h | h | h | h <;> subst h <;> rfl
  | [_], hge =>
    simp only [List.length_cons, List.length_nil] at hge
    rcases hcases with h | h | h | h <;> subst h <;> first | rfl | omega
  | [_, _], hge =>
    simp only [List.length_cons, List.length_nil] at hge
    rcases hcases with h | h | h | h <;> subst h <;> first | rfl | omega
  | [_, _, _], hge =>
    simp only [List.length_cons, List.length_nil] at hge
    rcases hcases with h | h | h | h <;> subst h <;> first | rfl | omega
  | _ :: _ :: _ :: _ :: _, hge =>
    simp only [List.length_cons] at hge
    unfold BUTTON_COUNT at hi
    omega

theorem handleButton_initializeButtonArray (w : VulkanWidget) (ov : OverlayWidget)
    (h : w.overlayWidget = some ov) (i : Nat) (hi : i < BUTTON_COUNT) :
    handleButton (initializeButtonArray w) i = (adopted ov.buttons)[i]? := by
  rw [initializeButtonArray_some w ov h]
  have hcases : i = 0 ∨ i = 1 ∨ i = 2 ∨ i = 3 := by
    unfold BUTTON_COUNT at hi
    omega
  rcases hcases with h | h | h | h <;> subst h <;> rfl

theorem iterate_initializeButtonArray (w : VulkanWidget) (ov : OverlayWidget)
    (h : w.overlayWidget = some ov) (n : Nat) :
    Nat.iterate initializeButtonArray (n + 1) w =
      { w with
        m_overlayButtons := [some 0, some 1, some 2, some 3]
        overlayWidget := some { ov with buttons := adopted ov.buttons } } := by
  induction n with
  | zero => exact initializeButtonArray_some w ov h
  | succ n ih =>
    rw [Function.iterate_succ_apply', ih]
    rw [initializeButtonArray_some _ { ov with buttons := adopted ov.buttons } rfl]
    simp only [adopted_adopted]

/-! ## Claims on button construction -/

/-- C5: from an overlay without button children, any number `n >= 1` of calls
of `initializeButtonArray` leaves exactly four buttons, labelled Screenshot,
Show All, Hide All, Toggle Grid in index order, each connected once to its own
slot: four connections in all. -/
theorem initializeButtonArray_no_duplicates (w : VulkanWidget) (ov : OverlayWidget)
    (n : Nat) (hOv : w.overlayWidget = some ov) (hEmpty : ov.buttons = []) (hn : 1 ≤ n) :
    ∃ ov1, (Nat.iterate initializeButtonArray n w).overlayWidget = some ov1 ∧
      ov1.buttons.map (fun b => (b.text, b.clicked)) =
        [("Screenshot", [Slot.onScreenshotClicked]), ("Show All", [Slot.onShowAllClicked]),
         ("Hide All", [Slot.onHideAllClicked]), ("Toggle Grid", [Slot.onToggleGridClicked])] ∧
      (ov1.buttons.map (fun b => b.clicked.length)).sum = 4 ∧
      (Nat.iterate initializeButtonArray n w).m_overlayButtons =
        [some 0, some 1, some 2, some 3] := by
  obtain ⟨m, rfl⟩ : ∃ m, n = m + 1 := ⟨n - 1, by omega⟩
  rw [iterate_initializeButtonArray w ov hOv m, hEmpty]
  exact ⟨_, rfl, rfl, rfl, rfl⟩

/-- C5 for three calls on a fresh overlay. -/
theorem initializeButtonArray_no_duplicates_witness :
    ∃ ov1, (Nat.iterate initializeButtonArray 3
        (freshWidget (some (overlayWith [])))).overlayWidget = some ov1 ∧
      ov1.buttons.map (fun b => (b.text, b.clicked)) =
        [("Screenshot", [Slot.onScreenshotClicked]), ("Show All", [Slot.onShowAllClicked]),
         ("Hide All", [Slot.onHideAllClicked]), ("Toggle Grid", [Slot.onToggleGridClicked])] ∧
      (ov1.buttons.map (fun b => b.clicked.length)).sum = 4 ∧
      (Nat.iterate initializeButtonArray 3
        (freshWidget (some (overlayWith [])))).m_overlayButtons =
        [some 0, some 1, some 2, some 3] :=
  initializeButtonArray_no_duplicates (freshWidget (some (overlayWith []))) (overlayWith []) 3
    rfl rfl (by decide)

/-- C6: on an overlay that already has four or more button children,
`initializeButtonArray` creates no button and connects nothing (every child
keeps its label, position and connections; the surplus children are untouched),
and handle `i` is child `i` for `i` in 0..3.  On any widget a second call
leaves the same handles as the first. -/
theorem initializeButtonArray_existing (w : VulkanWidget) :
    (∀ ov, w.overlayWidget = some ov → BUTTON_COUNT ≤ ov.buttons.length →
      ∃ ov1, (initializeButtonArray w).overlayWidget = some ov1 ∧
        ov1.buttons.length = ov.buttons.length ∧
        ov1.buttons.map (fun b => (b.text, b.pos, b.shown, b.clicked)) =
          ov.buttons.map (fun b => (b.text, b.pos, b.shown, b.clicked)) ∧
        ov1.buttons.drop BUTTON_COUNT = ov.buttons.drop BUTTON_COUNT ∧
        (initializeButtonArray w).m_overlayButtons = [some 0, some 1, some 2, some 3] ∧
        ∀ i, i < BUTTON_COUNT →
          handleButton (initializeButtonArray w) i = ov.buttons[i]?.map sized) ∧
    (initializeButtonArray (initializeButtonArray w)).m_overlayButtons =
      (initializeButtonArray w).m_overlayButtons := by
  constructor
  · intro ov hOv hlen
    refine ⟨{ ov with buttons := adopted ov.buttons }, ?_, ?_, ?_, ?_, ?_, ?_⟩
    · rw [initializeButtonArray_some w ov hOv]
    · show (adopted ov.buttons).length = ov.buttons.length
      rw [length_adopted]
      exact Nat.max_eq_left hlen
    · show (adopted ov.buttons).map _ = _
      match hbs : ov.buttons, hlen with
      | [], hlen => simp [BUTTON_COUNT] at hlen
      | [_], hlen => simp [BUTTON_COUNT] at hlen
      | [_, _], hlen => simp [BUTTON_COUNT] at hlen
      | [_, _, _], hlen => simp [BUTTON_COUNT] at hlen
      | _ :: _ :: _ :: _ :: _, _ => rfl
    · show (adopted ov.buttons).drop _ = _
      match hbs : ov.buttons, hlen with
      | [], hlen => simp [BUTTON_COUNT] at hlen
      | [_], hlen => simp [BUTTON_COUNT] at hlen
      | [_, _], hlen => simp [BUTTON_COUNT] at hlen
      | [_, _, _], hlen => simp [BUTTON_COUNT] at hlen
      | _ :: _ :: _ :: _ :: _, _ => rfl
    · rw [initializeButtonArray_some w ov hOv]
    · intro i hi
      rw [handleButton_initializeButtonArray w ov hOv i hi]
      exact getElem?_adopted_old ov.buttons i hi (Nat.lt_of_lt_of_le hi hlen)
  · cases hov : w.overlayWidget with
    | none =>
      have h1 := initializeButtonArray_noOverlay w hov
      have h2 : (initializeButtonArray w).overlayWidget = none := by rw [h1]; exact hov
      rw [initializeButtonArray_noOverlay _ h2, h1]
    | some ov =>
      have h1 := initializeButtonArray_some w ov hov
      have h2 : (initializeButtonArray w).overlayWidget =
          some { ov with buttons := adopted ov.buttons } := by rw [h1]
      rw [initializeButtonArray_some _ _ h2, h1]

/-- C6 on an overlay with five designer buttons. -/
theorem initializeButtonArray_existing_witness :
    ∃ ov1, (initializeButtonArray (freshWidget (some (overlayWith
        [designerButton "A", designerButton "B", designerButton "C", designerButton "D",
         designerButton "E"])))).overlayWidget = some ov1 ∧
      ov1.buttons.length = 5 ∧
      ov1.buttons.map (fun b => b.clicked) = [[], [], [], [], []] ∧
      (initializeButtonArray (freshWidget (some (overlayWith
        [designerButton "A", designerButton "B", designerButton "C", designerButton "D",
         designerButton "E"])))).m_overlayButtons = [some 0, some 1, some 2, some 3] := by
  obtain ⟨ov1, h1, h2, h3, _, h5, _⟩ :=
    (initializeButtonArray_existing (freshWidget (some (overlayWith
      [designerButton "A", designerButton "B", designerButton "C", designerButton "D",
       designerButton "E"])))).1 _ rfl (by decide)
  refine ⟨ov1, h1, h2, ?_, h5⟩
  have h := congrArg (List.map (fun p : String × QPoint × Bool × List Slot => p.2.2.2)) h3
  simpa [List.map_map, Function.comp_def] using h

/-- C7, as stated, fails: on an overlay that already has one button, labelled
"OK" and connected to nothing, handle 0 is that button after
`initializeButtonArray`; it does not carry the label Screenshot and it is
connected to no slot. -/
theorem initializeButtonArray_adopts_unbound :
    (handleButton (initializeButtonArray
        (freshWidget (some (overlayWith [designerButton "OK"])))) 0).map
        (fun b => (b.text, b.clicked)) = some ("OK", []) ∧
      ¬ ((handleButton (initializeButtonArray
        (freshWidget (some (overlayWith [designerButton "OK"])))) 0).map
        (fun b => (b.text, b.clicked)) = some ("Screenshot", [Slot.onScreenshotClicked])) := by
  have h : (handleButton (initializeButtonArray
        (freshWidget (some (overlayWith [designerButton "OK"])))) 0).map
        (fun b => (b.text, b.clicked)) = some ("OK", []) := rfl
  refine ⟨h, ?_⟩
  rw [h]
  simp

/-- C7, amended: after `initializeButtonArray` on an overlay with `k` button
children, every handle `i` in 0..3 with `i >= k` points to a button the call
created, which carries label `i` of Screenshot, Show All, Hide All, Toggle Grid
and is connected exactly once, to slot `i`; every handle `i < k` points to the
child `i` that was already there, with the label and the connections it had. -/
theorem initializeButtonArray_handles (w : VulkanWidget) (ov : OverlayWidget) (i : Nat)
    (hOv : w.overlayWidget = some ov) (hi : i < BUTTON_COUNT) :
    (ov.buttons.length ≤ i →
      (handleButton (initializeButtonArray w) i).map (fun b => (b.text, b.clicked)) =
        some (["Screenshot", "Show All", "Hide All", "Toggle Grid"].getD i "",
          [[Slot.onScreenshotClicked, Slot.onShowAllClicked, Slot.onHideAllClicked,
            Slot.onToggleGridClicked].getD i Slot.onScreenshotClicked])) ∧
    (i < ov.buttons.length →
      (handleButton (initializeButtonArray w) i).map (fun b => (b.text, b.clicked)) =
        ov.buttons[i]?.map (fun b => (b.text, b.clicked))) := by
  rw [handleButton_initializeButtonArray w ov hOv i hi]
  constructor
  · intro hge
    rw [getElem?_adopted_new ov.buttons i hi hge]
    have hcases : i = 0 ∨ i = 1 ∨ i = 2 ∨ i = 3 := by
      unfold BUTTON_COUNT at hi
      omega
    rcases hcases with h | h | h | h <;> subst h <;> rfl
  · intro hlt
    rw [getElem?_adopted_old ov.buttons i hi hlt, Option.map_map]
    rfl

/-- C7 amended, on an overlay with the one designer button "OK": handle 2 is a
created, connected button and handle 0 is the designer button. -/
theorem initializeButtonArray_handles_witness :
    (handleButton (initializeButtonArray
        (freshWidget (some (overlayWith [designerButton "OK"])))) 2).map
        (fun b => (b.text, b.clicked)) = some ("Hide All", [Slot.onHideAllClicked]) ∧
      (handleButton (initializeButtonArray
        (freshWidget (some (overlayWith [designerButton "OK"])))) 0).map
        (fun b => (b.text, b.clicked)) = some ("OK", []) :=
  ⟨(initializeButtonArray_handles (freshWidget (some (overlayWith [designerButton "OK"])))
      (overlayWith [designerButton "OK"]) 2 rfl (by decide)).1 (by decide),
   (initializeButtonArray_handles (freshWidget (some (overlayWith [designerButton "OK"])))
      (overlayWith [designerButton "OK"]) 0 rfl (by decide)).2 (by decide)⟩

/-! ## Claims on initialisation and the lifecycle -/

theorem setupOverlayWidget_ready (w : VulkanWidget) (h : w.m_overlayInitialized = true) :
    setupOverlayWidget w = w := by
  simp [setupOverlayWidget, h]

theorem setupOverlayWidget_noOverlay (w : VulkanWidget) (h : w.overlayWidget = none) :
    setupOverlayWidget w = w := by
  unfold setupOverlayWidget
  split
  · rfl
  · simp [h]

theorem setupOverlayWidget_fresh (w : VulkanWidget) (ov : OverlayWidget)
    (hUninit : w.m_overlayInitialized = false) (hOv : w.overlayWidget = some ov) :
    setupOverlayWidget w =
      { w with
        overlayWidget := some { setupOverlayProperties ov with buttons := adopted ov.buttons }
        m_overlayButtons := [some 0, some 1, some 2, some 3]
        singleShots := w.singleShots ++ [{ delay := 50, task := Task.firstLayout }]
        m_overlayInitialized := true } := by
  cases w with
  | mk o a b c d e f g =>
    simp only at hUninit hOv
    subst hUninit hOv
    simp only [setupOverlayWidget, Bool.false_eq_true, if_false]
    rw [initializeButtonArray_some _ (setupOverlayProperties ov) rfl]
    rfl

/-- C8: `setupOverlayWidget`, run before the overlay is initialised and with
the overlay widget present, ends with the overlay hidden, the four button
handles pointing to buttons of fixed size 120x40, and `m_overlayInitialized`
set. -/
theorem setupOverlayWidget_initializes (w : VulkanWidget) (ov : OverlayWidget)
    (hUninit : w.m_overlayInitialized = false) (hOv : w.overlayWidget = some ov) :
    overlayShown (setupOverlayWidget w) = false ∧
      (∀ i, i < BUTTON_COUNT → ∃ b, handleButton (setupOverlayWidget w) i = some b ∧
        b.fixedSize = some { width := 120, height := 40 }) ∧
      (setupOverlayWidget w).m_overlayInitialized = true := by
  rw [setupOverlayWidget_fresh w ov hUninit hOv]
  refine ⟨rfl, ?_, rfl⟩
  intro i hi
  have hb : handleButton
      { w with
        overlayWidget := some { setupOverlayProperties ov with buttons := adopted ov.buttons }
        m_overlayButtons := [some 0, some 1, some 2, some 3]
        singleShots := w.singleShots ++ [{ delay := 50, task := Task.firstLayout }]
        m_overlayInitialized := true } i = (adopted ov.buttons)[i]? := by
    have hcases : i = 0 ∨ i = 1 ∨ i = 2 ∨ i = 3 := by
      unfold BUTTON_COUNT at hi
      omega
    rcases hcases with h | h | h | h <;> subst h <;> rfl
  rw [hb]
  by_cases hlt : i < ov.buttons.length
  · rw [getElem?_adopted_old ov.buttons i hi hlt, List.getElem?_eq_getElem hlt]
    exact ⟨_, rfl, rfl⟩
  · rw [getElem?_adopted_new ov.buttons i hi (Nat.le_of_not_lt hlt)]
    exact ⟨_, rfl, rfl⟩

/-- C8 on a fresh widget whose overlay has one designer button. -/
theorem setupOverlayWidget_initializes_witness :
    overlayShown (setupOverlayWidget
        (freshWidget (some (overlayWith [designerButton "OK"])))) = false ∧
      (∀ i, i < BUTTON_COUNT → ∃ b, handleButton (setupOverlayWidget
        (freshWidget (some (overlayWith [designerButton "OK"])))) i = some b ∧
        b.fixedSize = some { width := 120, height := 40 }) ∧
      (setupOverlayWidget
        (freshWidget (some (overlayWith [designerButton "OK"])))).m_overlayInitialized = true :=
  setupOverlayWidget_initializes (freshWidget (some (overlayWith [designerButton "OK"])))
    (overlayWith [designerButton "OK"]) rfl rfl

theorem initializeOverlaySystem_fields (w : VulkanWidget) :
    (initializeOverlaySystem w).m_overlayInitialized = w.m_overlayInitialized ∧
      (initializeOverlaySystem w).overlayWidget = w.overlayWidget := by
  unfold initializeOverlaySystem
  cases h : w.m_overlayUpdateTimer with
  | none => exact ⟨rfl, rfl⟩
  | some k => simp [h]

theorem timerTimeout_ready (k : Nat) (w : VulkanWidget) (h : w.m_overlayInitialized = true) :
    { timerTimeout k w with timers := w.timers } = w := by
  unfold timerTimeout
  cases w.timers[k]? with
  | none => rfl
  | some t =>
    by_cases ha : t.active = true
    · have hs := setupOverlayWidget_ready
        { w with timers := w.timers.set k { t with active := !t.singleShot } } h
      simp only [ha, if_true]
      rw [hs]
    · simp only [ha]
      rfl

/-- C9: when `m_overlayInitialized` is already set, `setupOverlayWidget` leaves
the whole widget state as it is: no button is created or connected, nothing is
scheduled, the overlay is untouched.  The same holds when the call comes from
the restarted set-up timer: after `initializeOverlaySystem`, a time-out of any
timer changes nothing but the timer itself. -/
theorem setupOverlayWidget_idempotent (w : VulkanWidget)
    (hReady : w.m_overlayInitialized = true) :
    setupOverlayWidget w = w ∧
      setupOverlayWidget (initializeOverlaySystem w) = initializeOverlaySystem w ∧
      ∀ k, { timerTimeout k (initializeOverlaySystem w) with
              timers := (initializeOverlaySystem w).timers } = initializeOverlaySystem w := by
  have h1 : (initializeOverlaySystem w).m_overlayInitialized = true := by
    rw [(initializeOverlaySystem_fields w).1]
    exact hReady
  exact ⟨setupOverlayWidget_ready w hReady, setupOverlayWidget_ready _ h1,
    fun k => timerTimeout_ready k _ h1⟩

/-- C9 on the ready widget: a second `setupOverlayWidget` and a re-fired
set-up timer leave it as it is. -/
theorem setupOverlayWidget_idempotent_witness :
    setupOverlayWidget readyWidget = readyWidget ∧
      timerTimeout 0 (initializeOverlaySystem readyWidget) =
        { readyWidget with
          timers := [{ singleShot := true, interval := 100, active := false }]
          m_overlayUpdateTimer := some 0 } :=
  ⟨(setupOverlayWidget_idempotent readyWidget (by decide)).1, by decide⟩

theorem updateOverlayGeometry_initialized (q : Sample) (w : VulkanWidget) :
    (updateOverlayGeometry q w).m_overlayInitialized = w.m_overlayInitialized := by
  cases hReady : w.m_overlayInitialized with
  | false => rw [updateOverlayGeometry_notReady q w hReady, hReady]
  | true =>
    cases hov : w.overlayWidget with
    | none => rw [updateOverlayGeometry_noOverlay q w hov, hReady]
    | some ov =>
      cases hShow : showCondition q w with
      | true => rw [updateOverlayGeometry_show q w ov hReady hov hShow]; exact hReady
      | false => rw [updateOverlayGeometry_hide q w ov hReady hov hShow]; exact hReady

theorem hideOverlayIfPresent_initialized (w : VulkanWidget) :
    (hideOverlayIfPresent w).m_overlayInitialized = w.m_overlayInitialized := by
  unfold hideOverlayIfPresent
  cases w.overlayWidget <;> rfl

theorem hideOverlayUnguarded_initialized (w w1 : VulkanWidget)
    (h : hideOverlayUnguarded w = some w1) :
    w1.m_overlayInitialized = w.m_overlayInitialized := by
  unfold hideOverlayUnguarded at h
  cases hov : w.overlayWidget with
  | none => simp [hov] at h
  | some ov =>
    simp only [hov, Option.some.injEq] at h
    subst h
    rfl

theorem hideOverlayUnguarded_isSome (w : VulkanWidget) (h : w.overlayWidget.isSome = true) :
    (hideOverlayUnguarded w).isSome = true := by
  unfold hideOverlayUnguarded
  cases hov : w.overlayWidget with
  | none => simp [hov] at h
  | some ov => rfl

theorem fireSingleShot_initialized (i : Nat) (q : Sample) (w : VulkanWidget) :
    (fireSingleShot i q w).m_overlayInitialized = w.m_overlayInitialized := by
  unfold fireSingleShot
  cases w.singleShots[i]? with
  | none => rfl
  | some s =>
    cases hs : s.task with
    | recompute => simp only [hs, runTask, updateOverlayGeometry_initialized]
    | firstLayout =>
      simp only [hs, runTask, scheduleSingleShot, updateOverlayGeometry_initialized]

theorem changeEvent_initialized (t : EventType) (q : Sample) (w w1 : VulkanWidget)
    (h : changeEvent t q w = some w1) :
    w1.m_overlayInitialized = w.m_overlayInitialized := by
  unfold changeEvent at h
  split at h
  · split at h
    · exact hideOverlayUnguarded_initialized w w1 h
    · simp only [Option.some.injEq] at h
      subst h
      rfl
  · split at h
    · split at h <;>
      · simp only [Option.some.injEq] at h
        subst h
        rfl
    · simp only [Option.some.injEq] at h
      subst h
      rfl

theorem changeEvent_isSome (t : EventType) (q : Sample) (w : VulkanWidget)
    (h : w.overlayWidget.isSome = true) : (changeEvent t q w).isSome = true := by
  unfold changeEvent
  split
  · split
    · exact hideOverlayUnguarded_isSome w h
    · rfl
  · split
    · split <;> rfl
    · rfl

theorem eventFilterWindow_fields (t : EventType) (q : Sample) (w : VulkanWidget) :
    (eventFilterWindow t q w).m_overlayInitialized = w.m_overlayInitialized ∧
      (eventFilterWindow t q w).overlayWidget.isSome = w.overlayWidget.isSome := by
  have hh : (hideOverlayIfPresent w).m_overlayInitialized = w.m_overlayInitialized ∧
      (hideOverlayIfPresent w).overlayWidget.isSome = w.overlayWidget.isSome := by
    refine ⟨hideOverlayIfPresent_initialized w, ?_⟩
    cases hov : w.overlayWidget <;> simp [hideOverlayIfPresent, hov]
  cases t with
  | WindowActivate => exact ⟨rfl, rfl⟩
  | WindowDeactivate => exact hh
  | Show =>
    simp only [eventFilterWindow]
    split <;> exact ⟨rfl, rfl⟩
  | Hide => exact hh
  | Resize => exact ⟨rfl, rfl⟩
  | WindowStateChange => exact ⟨rfl, rfl⟩
  | ActivationChange => exact ⟨rfl, rfl⟩
  | Other => exact ⟨rfl, rfl⟩

theorem eventFilterContainer_initialized (t : EventType) (q : Sample) (w w1 : VulkanWidget)
    (h : eventFilterContainer t q w = some w1) :
    w1.m_overlayInitialized = w.m_overlayInitialized := by
  unfold eventFilterContainer at h
  split at h
  · simp only at h
    split at h
    · simp only [Option.some.injEq] at h
      subst h
      rfl
    · exact hideOverlayUnguarded_initialized w w1 h
  · simp only [Option.some.injEq] at h
    subst h
    rfl

theorem eventFilterContainer_isSome (t : EventType) (q : Sample) (w : VulkanWidget)
    (h : w.overlayWidget.isSome = true) : (eventFilterContainer t q w).isSome = true := by
  unfold eventFilterContainer
  split
  · simp only
    split
    · rfl
    · exact hideOverlayUnguarded_isSome w h
  · rfl

theorem eventFilter_initialized (x : Watched) (t : EventType) (q : Sample)
    (w w1 : VulkanWidget) (h : eventFilter x t q w = some w1) :
    w1.m_overlayInitialized = w.m_overlayInitialized := by
  unfold eventFilter at h
  split at h
  · simp only at h
    split at h
    · rw [eventFilterContainer_initialized t q _ w1 h]
      split
      · exact (eventFilterWindow_fields t q w).1
      · rfl
    · simp only [Option.some.injEq] at h
      subst h
      split
      · exact (eventFilterWindow_fields t q w).1
      · rfl
  · simp only [Option.some.injEq] at h
    subst h
    rfl

theorem eventFilter_isSome (x : Watched) (t : EventType) (q : Sample) (w : VulkanWidget)
    (h : w.overlayWidget.isSome = true) : (eventFilter x t q w).isSome = true := by
  unfold eventFilter
  split
  · simp only
    split
    · apply eventFilterContainer_isSome
      split
      · rw [(eventFilterWindow_fields t q w).2]; exact h
      · exact h
    · rfl
  · rfl

theorem timerTimeout_initialized (k : Nat) (w : VulkanWidget)
    (h : w.m_overlayInitialized = true) : (timerTimeout k w).m_overlayInitialized = true := by
  have hk := congrArg VulkanWidget.m_overlayInitialized (timerTimeout_ready k w h)
  simp only at hk
  rw [hk, h]

theorem step_initialized (op : Op) (q : Sample) (w w1 : VulkanWidget)
    (hReady : w.m_overlayInitialized = true) (h : step op q w = some w1) :
    w1.m_overlayInitialized = true := by
  cases op with
  | initializeOverlaySystem =>
    simp only [step, Option.some.injEq] at h
    subst h
    rw [(initializeOverlaySystem_fields w).1, hReady]
  | timerTimeout k =>
    simp only [step, Option.some.injEq] at h
    subst h
    exact timerTimeout_initialized k w hReady
  | setupOverlayWidget =>
    simp only [step, Option.some.injEq] at h
    subst h
    rw [setupOverlayWidget_ready w hReady, hReady]
  | updateOverlayGeometry =>
    simp only [step, Option.some.injEq] at h
    subst h
    rw [updateOverlayGeometry_initialized, hReady]
  | fireSingleShot i =>
    simp only [step, Option.some.injEq] at h
    subst h
    rw [fireSingleShot_initialized, hReady]
  | focusOutEvent =>
    simp only [step, focusOutEvent, Option.some.injEq] at h
    subst h
    rw [hideOverlayIfPresent_initialized, hReady]
  | focusInEvent =>
    simp only [step, focusInEvent, hReady, if_true, Option.some.injEq] at h
    subst h
    exact hReady
  | closeEvent =>
    simp only [step, closeEvent, Option.some.injEq] at h
    subst h
    rw [hideOverlayIfPresent_initialized, hReady]
  | resizeEvent =>
    simp only [step, resizeEvent, hReady, if_true, Option.some.injEq] at h
    subst h
    exact hReady
  | moveEvent =>
    simp only [step, moveEvent, hReady, if_true, Option.some.injEq] at h
    subst h
    exact hReady
  | changeEvent t =>
    rw [changeEvent_initialized t q w w1 h, hReady]
  | eventFilter x t =>
    rw [eventFilter_initialized x t q w w1 h, hReady]
  | vulkanWindowDestroyed =>
    simp only [step, vulkanWindowDestroyed, Option.some.injEq] at h
    subst h
    rw [hideOverlayIfPresent_initialized, hReady]

theorem step_isSome (op : Op) (q : Sample) (w : VulkanWidget)
    (h : w.overlayWidget.isSome = true) : (step op q w).isSome = true := by
  cases op with
  | changeEvent t => exact changeEvent_isSome t q w h
  | eventFilter x t => exact eventFilter_isSome x t q w h
  | _ => rfl

/-- C10: once `m_overlayInitialized` is set, no operation clears it: every
state an operation (set-up, a timer, a recompute, any window-system handler,
close) returns still has it set, and with the overlay widget present every
operation does return a state. -/
theorem lifecycle_never_regresses (op : Op) (q : Sample) (w : VulkanWidget)
    (hReady : w.m_overlayInitialized = true) :
    (∀ w1, step op q w = some w1 → w1.m_overlayInitialized = true) ∧
      (w.overlayWidget.isSome = true →
        ∃ w1, step op q w = some w1 ∧ w1.m_overlayInitialized = true) := by
  refine ⟨fun w1 h => step_initialized op q w w1 hReady h, ?_⟩
  intro hOv
  obtain ⟨w1, h1⟩ := Option.isSome_iff_exists.mp (step_isSome op q w hOv)
  exact ⟨w1, h1, step_initialized op q w w1 hReady h1⟩

/-- C10 on the ready widget: closing it keeps `m_overlayInitialized` set. -/
theorem lifecycle_never_regresses_witness :
    ∃ w1, step Op.closeEvent (sampleOf true true false true) readyWidget = some w1 ∧
      w1.m_overlayInitialized = true :=
  (lifecycle_never_regresses Op.closeEvent (sampleOf true true false true) readyWidget
    (by decide)).2 (by decide)

/-! ## Lemmas on the schedule -/

theorem updateOverlayGeometry_singleShots (q : Sample) (w : VulkanWidget) :
    (updateOverlayGeometry q w).singleShots = w.singleShots := by
  cases hReady : w.m_overlayInitialized with
  | false => rw [updateOverlayGeometry_notReady q w hReady]
  | true =>
    cases hov : w.overlayWidget with
    | none => rw [updateOverlayGeometry_noOverlay q w hov]
    | some ov =>
      cases hShow : showCondition q w with
      | true => rw [updateOverlayGeometry_show q w ov hReady hov hShow]
      | false => rw [updateOverlayGeometry_hide q w ov hReady hov hShow]

theorem eraseIdx_concat_length (l : List SingleShot) (s : SingleShot) :
    (l ++ [s]).eraseIdx l.length = l := by
  induction l with
  | nil => rfl
  | cons a l ih => simp [List.eraseIdx, ih]

theorem fireSingleShot_last (q : Sample) (w : VulkanWidget) (s : SingleShot) :
    fireSingleShot w.singleShots.length q { w with singleShots := w.singleShots ++ [s] } =
      runTask s.task q w := by
  unfold fireSingleShot
  simp only [List.getElem?_concat_length, eraseIdx_concat_length]

theorem scheduleSingleShot_eq (d : Nat) (t : Task) (w : VulkanWidget) :
    scheduleSingleShot d t w =
      { w with singleShots := w.singleShots ++ [{ delay := d, task := t }] } := rfl

theorem hideOverlayUnguarded_some (w : VulkanWidget) (ov : OverlayWidget)
    (h : w.overlayWidget = some ov) :
    hideOverlayUnguarded w =
      some { w with overlayWidget := some { ov with visible := false } } := by
  simp [hideOverlayUnguarded, h]

theorem hideOverlayIfPresent_some (w : VulkanWidget) (ov : OverlayWidget)
    (h : w.overlayWidget = some ov) :
    hideOverlayIfPresent w = { w with overlayWidget := some { ov with visible := false } } := by
  simp [hideOverlayIfPresent, h]

/-! ## Claims on scheduling -/

/-- C11, as stated, fails: the recompute that the first follow-up registers on
the ready widget has delay 100, not 50. -/
theorem setupOverlayWidget_second_delay_is_100 :
    readyWidget.singleShots = [{ delay := 50, task := Task.firstLayout }] ∧
      (fireSingleShot 0 (sampleSized 800 600) readyWidget).singleShots =
        [{ delay := 100, task := Task.recompute }] ∧
      ¬ ((fireSingleShot 0 (sampleSized 800 600) readyWidget).singleShots =
        [{ delay := 50, task := Task.recompute }]) := by
  decide

/-- C11, amended: a successful `setupOverlayWidget` registers one single shot,
with delay 50; when it fires it runs `updateOverlayGeometry` and registers one
more single shot, with delay 100 (150 after initialisation); when that one
fires it runs `updateOverlayGeometry` and registers nothing.  So exactly two
follow-up recomputes are run. -/
theorem setupOverlayWidget_follow_ups (q1 q2 : Sample) (w : VulkanWidget)
    (ov : OverlayWidget) (hUninit : w.m_overlayInitialized = false)
    (hOv : w.overlayWidget = some ov) :
    (setupOverlayWidget w).singleShots =
        w.singleShots ++ [{ delay := 50, task := Task.firstLayout }] ∧
      fireSingleShot w.singleShots.length q1 (setupOverlayWidget w) =
        scheduleSingleShot 100 Task.recompute
          (updateOverlayGeometry q1 { setupOverlayWidget w with singleShots := w.singleShots }) ∧
      (fireSingleShot w.singleShots.length q1 (setupOverlayWidget w)).singleShots =
        w.singleShots ++ [{ delay := 100, task := Task.recompute }] ∧
      fireSingleShot w.singleShots.length q2
          (fireSingleShot w.singleShots.length q1 (setupOverlayWidget w)) =
        updateOverlayGeometry q2
          (updateOverlayGeometry q1 { setupOverlayWidget w with singleShots := w.singleShots }) ∧
      (fireSingleShot w.singleShots.length q2
          (fireSingleShot w.singleShots.length q1 (setupOverlayWidget w))).singleShots =
        w.singleShots := by
  have hs := setupOverlayWidget_fresh w ov hUninit hOv
  have h0 : (setupOverlayWidget w).singleShots =
      w.singleShots ++ [{ delay := 50, task := Task.firstLayout }] := by rw [hs]
  have hsplit : setupOverlayWidget w =
      { ({ setupOverlayWidget w with singleShots := w.singleShots } : VulkanWidget) with
        singleShots :=
          ({ setupOverlayWidget w with singleShots := w.singleShots } : VulkanWidget).singleShots ++
            [{ delay := 50, task := Task.firstLayout }] } := by
    rw [hs]
  have h1 : fireSingleShot w.singleShots.length q1 (setupOverlayWidget w) =
      scheduleSingleShot 100 Task.recompute
        (updateOverlayGeometry q1
          { setupOverlayWidget w with singleShots := w.singleShots }) := by
    conv_lhs => rw [hsplit]
    exact fireSingleShot_last q1 { setupOverlayWidget w with singleShots := w.singleShots } _
  have h2 : (fireSingleShot w.singleShots.length q1 (setupOverlayWidget w)).singleShots =
      w.singleShots ++ [{ delay := 100, task := Task.recompute }] := by
    rw [h1, scheduleSingleShot_eq]
    simp only [updateOverlayGeometry_singleShots]
  have h3 : fireSingleShot w.singleShots.length q2
        (fireSingleShot w.singleShots.length q1 (setupOverlayWidget w)) =
      updateOverlayGeometry q2
        (updateOverlayGeometry q1
          { setupOverlayWidget w with singleShots := w.singleShots }) := by
    rw [h1, scheduleSingleShot_eq]
    have hl : w.singleShots.length =
        (updateOverlayGeometry q1
          { setupOverlayWidget w with singleShots := w.singleShots }).singleShots.length := by
      rw [updateOverlayGeometry_singleShots]
    rw [hl]
    exact fireSingleShot_last q2 _ _
  refine ⟨h0, h1, h2, h3, ?_⟩
  rw [h3]
  simp only [updateOverlayGeometry_singleShots]

/-- C11 amended, on a fresh widget: the delays are 50, then 100, then the
schedule is empty. -/
theorem setupOverlayWidget_follow_ups_witness :
    (setupOverlayWidget (freshWidget (some (overlayWith [])))).singleShots =
        [{ delay := 50, task := Task.firstLayout }] ∧
      (fireSingleShot 0 (sampleSized 800 600)
        (setupOverlayWidget (freshWidget (some (overlayWith []))))).singleShots =
        [{ delay := 100, task := Task.recompute }] ∧
      (fireSingleShot 0 (sampleSized 800 600) (fireSingleShot 0 (sampleSized 800 600)
        (setupOverlayWidget (freshWidget (some (overlayWith [])))))).singleShots = [] := by
  have h := setupOverlayWidget_follow_ups (sampleSized 800 600) (sampleSized 800 600)
    (freshWidget (some (overlayWith []))) (overlayWith []) rfl rfl
  exact ⟨h.1, h.2.2.1, h.2.2.2.2⟩

/-- C12: while `m_overlayInitialized` is not set, every notification (Resize,
Move, StateChange and the other event kinds), every `changeEvent` and every
event routed through `eventFilter` returns the state unchanged, so nothing is
scheduled and the overlay and its buttons are untouched; `focusInEvent` and a
recompute (`updateOverlayGeometry`, also as the body of a fired single shot) do
nothing either. -/
theorem not_ready_drops_notifications (q : Sample) (w : VulkanWidget)
    (hNotReady : w.m_overlayInitialized = false) :
    (∀ e, notify e q w = some w) ∧
      resizeEvent w = w ∧ moveEvent w = w ∧ focusInEvent w = w ∧
      (∀ t, changeEvent t q w = some w) ∧
      (∀ x t, eventFilter x t q w = some w) ∧
      updateOverlayGeometry q w = w ∧
      runTask Task.recompute q w = w := by
  have hr : resizeEvent w = w := by simp [resizeEvent, hNotReady]
  have hm : moveEvent w = w := by simp [moveEvent, hNotReady]
  have hf : focusInEvent w = w := by simp [focusInEvent, hNotReady]
  have hc : ∀ t, changeEvent t q w = some w := by
    intro t
    simp [changeEvent, hNotReady]
  have he : ∀ x t, eventFilter x t q w = some w := by
    intro x t
    simp [eventFilter, hNotReady]
  have hu := updateOverlayGeometry_notReady q w hNotReady
  refine ⟨?_, hr, hm, hf, hc, he, hu, hu⟩
  intro e
  cases e <;> simp only [notify, hr, hm, hc, he]

/-- C12 on a fresh widget: a Resize notification and a recompute leave it as
it is. -/
theorem not_ready_drops_notifications_witness :
    notify EventKind.Resize (sampleSized 800 600) (freshWidget (some (overlayWith []))) =
        some (freshWidget (some (overlayWith []))) ∧
      updateOverlayGeometry (sampleSized 800 600) (freshWidget (some (overlayWith []))) =
        freshWidget (some (overlayWith [])) := by
  have h := not_ready_drops_notifications (sampleSized 800 600)
    (freshWidget (some (overlayWith []))) rfl
  exact ⟨h.1 EventKind.Resize, h.2.2.2.2.2.2.1⟩

theorem hideOverlayIfPresent_singleShots (w : VulkanWidget) :
    (hideOverlayIfPresent w).singleShots = w.singleShots := by
  unfold hideOverlayIfPresent
  cases w.overlayWidget <;> rfl

theorem hideOverlayUnguarded_singleShots (w w1 : VulkanWidget)
    (h : hideOverlayUnguarded w = some w1) : w1.singleShots = w.singleShots := by
  unfold hideOverlayUnguarded at h
  cases hov : w.overlayWidget with
  | none => simp [hov] at h
  | some ov =>
    simp only [hov, Option.some.injEq] at h
    subst h
    rfl

theorem changeEvent_singleShots (t : EventType) (q : Sample) (w w1 : VulkanWidget)
    (h : changeEvent t q w = some w1) :
    w1.singleShots = w.singleShots ∨
      w1.singleShots = w.singleShots ++
        [recomputeAfter (if t = EventType.WindowStateChange then 50 else 10)] := by
  unfold changeEvent at h
  split at h
  · rename_i hc
    simp only [Bool.and_eq_true, decide_eq_true_eq] at hc
    split at h
    · exact Or.inl (hideOverlayUnguarded_singleShots w w1 h)
    · simp only [Option.some.injEq] at h
      subst h
      right
      rw [if_pos hc.1]
      rfl
  · split at h
    · rename_i ha
      split at h
      · simp only [Option.some.injEq] at h
        subst h
        right
        subst ha
        rfl
      · simp only [Option.some.injEq] at h
        subst h
        exact Or.inl rfl
    · simp only [Option.some.injEq] at h
      subst h
      exact Or.inl rfl

theorem eventFilterWindow_singleShots (t : EventType) (q : Sample) (w : VulkanWidget) :
    (eventFilterWindow t q w).singleShots = w.singleShots ∨
      (eventFilterWindow t q w).singleShots = w.singleShots ++
        [recomputeAfter (if t = EventType.Show then 50 else 10)] := by
  cases t with
  | WindowActivate => exact Or.inr rfl
  | WindowDeactivate => exact Or.inl (hideOverlayIfPresent_singleShots w)
  | Show =>
    simp only [eventFilterWindow]
    split
    · exact Or.inr rfl
    · exact Or.inl rfl
  | Hide => exact Or.inl (hideOverlayIfPresent_singleShots w)
  | Resize => exact Or.inl rfl
  | WindowStateChange => exact Or.inl rfl
  | ActivationChange => exact Or.inl rfl
  | Other => exact Or.inl rfl

theorem eventFilterContainer_singleShots (t : EventType) (q : Sample) (w w1 : VulkanWidget)
    (h : eventFilterContainer t q w = some w1) :
    w1.singleShots = w.singleShots ∨
      w1.singleShots = w.singleShots ++ [recomputeAfter 10] := by
  unfold eventFilterContainer at h
  split at h
  · simp only at h
    split at h
    · simp only [Option.some.injEq] at h
      subst h
      exact Or.inr rfl
    · exact Or.inl (hideOverlayUnguarded_singleShots w w1 h)
  · simp only [Option.some.injEq] at h
    subst h
    exact Or.inl rfl

theorem eventFilter_singleShots (x : Watched) (t : EventType) (q : Sample)
    (w w1 : VulkanWidget) (h : eventFilter x t q w = some w1) :
    w1.singleShots = w.singleShots ∨
      w1.singleShots = w.singleShots ++
        [recomputeAfter (if x = Watched.self ∧ t = EventType.Show then 50 else 10)] := by
  unfold eventFilter at h
  split at h
  · cases x with
    | self =>
      simp only [if_true, reduceCtorEq, if_false, Option.some.injEq] at h
      subst h
      simpa using eventFilterWindow_singleShots t q w
    | vulkanContainer =>
      simp only [reduceCtorEq, if_false, if_true] at h
      simpa using eventFilterContainer_singleShots t q w w1 h
    | other =>
      simp only [reduceCtorEq, if_false, Option.some.injEq] at h
      subst h
      exact Or.inl rfl
  · simp only [Option.some.injEq] at h
    subst h
    exact Or.inl rfl

theorem hideOverlayUnguarded_eq (w : VulkanWidget) (h : w.overlayWidget.isSome = true) :
    hideOverlayUnguarded w = some (hideOverlayIfPresent w) := by
  unfold hideOverlayUnguarded hideOverlayIfPresent
  cases hov : w.overlayWidget with
  | none => simp [hov] at h
  | some ov => rfl

theorem changeEvent_stateChange_ready (q : Sample) (w : VulkanWidget)
    (hReady : w.m_overlayInitialized = true) :
    changeEvent EventType.WindowStateChange q w =
      if (q.isMinimized || !q.isVisible) = true then hideOverlayUnguarded w
      else some (scheduleSingleShot 50 Task.recompute w) := by
  unfold changeEvent
  rw [if_pos (by simp [hReady])]

theorem eventFilter_self_ready (t : EventType) (q : Sample) (w : VulkanWidget)
    (hReady : w.m_overlayInitialized = true) :
    eventFilter Watched.self t q w = some (eventFilterWindow t q w) := by
  unfold eventFilter
  rw [if_pos hReady]
  rfl

theorem eventFilter_container_ready (t : EventType) (q : Sample) (w : VulkanWidget)
    (hReady : w.m_overlayInitialized = true) :
    eventFilter Watched.vulkanContainer t q w = eventFilterContainer t q w := by
  unfold eventFilter
  rw [if_pos hReady]
  rfl

theorem eventFilterContainer_large (t : EventType) (q : Sample) (w : VulkanWidget)
    (ht : t = EventType.Resize ∨ t = EventType.Show)
    (hc : q.containerSize.width > 50 ∧ q.containerSize.height > 50) :
    eventFilterContainer t q w = some (scheduleSingleShot 10 Task.recompute w) := by
  unfold eventFilterContainer
  rw [if_pos (by rcases ht with h | h <;> simp [h])]
  simp only
  rw [if_pos (by simp [hc])]

theorem eventFilterContainer_small (t : EventType) (q : Sample) (w : VulkanWidget)
    (ht : t = EventType.Resize ∨ t = EventType.Show)
    (hc : ¬ (q.containerSize.width > 50 ∧ q.containerSize.height > 50)) :
    eventFilterContainer t q w = hideOverlayUnguarded w := by
  unfold eventFilterContainer
  rw [if_pos (by rcases ht with h | h <;> simp [h])]
  simp only
  rw [if_neg (by simpa using hc)]

/-- C14: every window-system handler has a delay `d` fixed by the handler and
the event type alone, with `10 <= d <= 50`, such that whatever the state and
the sampled toolkit state, the handler leaves the schedule as it is or appends
exactly one recompute with delay `d`. -/
theorem handler_delay_bounds (op : Op) (hop : isHandler op = true) :
    ∃ d, 10 ≤ d ∧ d ≤ 50 ∧ ∀ q w w1, step op q w = some w1 →
      (w1.singleShots = w.singleShots ∨
        w1.singleShots = w.singleShots ++ [{ delay := d, task := Task.recompute }]) := by
  have hsched : ∀ (f : VulkanWidget → VulkanWidget),
      (∀ w, f w = if w.m_overlayInitialized = true
        then scheduleSingleShot 10 Task.recompute w else w) →
      ∀ w w1, some (f w) = some w1 →
        (w1.singleShots = w.singleShots ∨
          w1.singleShots = w.singleShots ++ [{ delay := 10, task := Task.recompute }]) := by
    intro f hf w w1 h
    simp only [Option.some.injEq] at h
    subst h
    rw [hf w]
    split
    · exact Or.inr rfl
    · exact Or.inl rfl
  have hhidden : ∀ w w1, some (hideOverlayIfPresent w) = some w1 →
      (w1.singleShots = w.singleShots ∨
        w1.singleShots = w.singleShots ++ [{ delay := 10, task := Task.recompute }]) := by
    intro w w1 h
    simp only [Option.some.injEq] at h
    subst h
    exact Or.inl (hideOverlayIfPresent_singleShots w)
  cases op with
  | initializeOverlaySystem => simp [isHandler] at hop
  | timerTimeout k => simp [isHandler] at hop
  | setupOverlayWidget => simp [isHandler] at hop
  | updateOverlayGeometry => simp [isHandler] at hop
  | fireSingleShot i => simp [isHandler] at hop
  | vulkanWindowDestroyed => simp [isHandler] at hop
  | focusOutEvent =>
    exact ⟨10, by decide, by decide, fun _ w w1 h => hhidden w w1 h⟩
  | closeEvent =>
    exact ⟨10, by decide, by decide, fun _ w w1 h => hhidden w w1 h⟩
  | focusInEvent =>
    exact ⟨10, by decide, by decide, fun _ w w1 h => hsched focusInEvent (fun _ => rfl) w w1 h⟩
  | resizeEvent =>
    exact ⟨10, by decide, by decide, fun _ w w1 h => hsched resizeEvent (fun _ => rfl) w w1 h⟩
  | moveEvent =>
    exact ⟨10, by decide, by decide, fun _ w w1 h => hsched moveEvent (fun _ => rfl) w w1 h⟩
  | changeEvent t =>
    refine ⟨if t = EventType.WindowStateChange then 50 else 10, ?_, ?_, ?_⟩
    · split <;> decide
    · split <;> decide
    · intro q w w1 h
      exact changeEvent_singleShots t q w w1 h
  | eventFilter x t =>
    refine ⟨if x = Watched.self ∧ t = EventType.Show then 50 else 10, ?_, ?_, ?_⟩
    · split <;> decide
    · split <;> decide
    · intro q w w1 h
      exact eventFilter_singleShots x t q w w1 h

/-- C14 for `changeEvent` with a window state change: the delay is 50 on the
ready widget with the host window visible and not minimized. -/
theorem handler_delay_bounds_witness :
    ∃ d, 10 ≤ d ∧ d ≤ 50 ∧
      ((step (Op.changeEvent EventType.WindowStateChange) (sampleSized 800 600)
          readyWidget).map (fun s => s.singleShots) =
        some (readyWidget.singleShots ++ [{ delay := d, task := Task.recompute }])) := by
  obtain ⟨d, h1, h2, h3⟩ :=
    handler_delay_bounds (Op.changeEvent EventType.WindowStateChange) rfl
  have hstep : step (Op.changeEvent EventType.WindowStateChange) (sampleSized 800 600)
      readyWidget = some (scheduleSingleShot 50 Task.recompute readyWidget) := by decide
  refine ⟨d, h1, h2, ?_⟩
  rcases h3 _ _ _ hstep with h | h
  · exact absurd h (by decide)
  · rw [hstep, Option.map_some', ← h]

/-- C15: `n` Resize notifications in a row, in a Ready state and with no timer
firing in between, append `n` recomputes with delay 10 to the schedule and
change nothing else; so do `n` Move notifications.  The entries already
pending stay, and none of the new ones is merged or dropped. -/
theorem resize_move_not_deduplicated (n : Nat) (w : VulkanWidget)
    (hReady : w.m_overlayInitialized = true) :
    Nat.iterate resizeEvent n w =
        { w with singleShots := w.singleShots ++ List.replicate n (recomputeAfter 10) } ∧
      Nat.iterate moveEvent n w =
        { w with singleShots := w.singleShots ++ List.replicate n (recomputeAfter 10) } ∧
      (Nat.iterate resizeEvent n w).singleShots.length = w.singleShots.length + n ∧
      (Nat.iterate moveEvent n w).singleShots.length = w.singleShots.length + n := by
  have key : ∀ (f : VulkanWidget → VulkanWidget),
      (∀ v, f v = if v.m_overlayInitialized = true
        then scheduleSingleShot 10 Task.recompute v else v) →
      Nat.iterate f n w =
        { w with singleShots := w.singleShots ++ List.replicate n (recomputeAfter 10) } := by
    intro f hf
    induction n with
    | zero => simp
    | succ n ih =>
      rw [Function.iterate_succ_apply', ih, hf]
      rw [if_pos hReady]
      simp only [scheduleSingleShot, List.append_assoc, List.replicate_succ']
      rfl
  have hr := key resizeEvent (fun _ => rfl)
  have hm := key moveEvent (fun _ => rfl)
  refine ⟨hr, hm, ?_, ?_⟩
  · rw [hr]; simp
  · rw [hm]; simp

/-- C15 on the ready widget: three Resize notifications leave the one pending
entry and three recomputes of their own. -/
theorem resize_move_not_deduplicated_witness :
    (Nat.iterate resizeEvent 3 readyWidget).singleShots =
      [{ delay := 50, task := Task.firstLayout }, recomputeAfter 10, recomputeAfter 10,
        recomputeAfter 10] := by
  rw [(resize_move_not_deduplicated 3 readyWidget (by decide)).1]
  rfl

/-- C16: in every state, also before set-up and after an earlier close,
`closeEvent` returns a state (no null dereference), in which the overlay is
not shown, and a second `closeEvent` changes nothing more.  The handler
connected to `destroyed` behaves the same. -/
theorem closeEvent_safe_idempotent (q : Sample) (w : VulkanWidget) :
    step Op.closeEvent q w = some (closeEvent w) ∧
      overlayShown (closeEvent w) = false ∧
      closeEvent (closeEvent w) = closeEvent w ∧
      overlayShown (vulkanWindowDestroyed w) = false ∧
      vulkanWindowDestroyed (vulkanWindowDestroyed w) = vulkanWindowDestroyed w := by
  have h1 : overlayShown (hideOverlayIfPresent w) = false := by
    unfold hideOverlayIfPresent overlayShown
    cases hov : w.overlayWidget with
    | none => simp [hov]
    | some ov => rfl
  have h2 : hideOverlayIfPresent (hideOverlayIfPresent w) = hideOverlayIfPresent w := by
    cases hov : w.overlayWidget with
    | none =>
      have h : hideOverlayIfPresent w = w := by simp [hideOverlayIfPresent, hov]
      rw [h, h]
    | some ov =>
      rw [hideOverlayIfPresent_some w ov hov]
      rfl
  exact ⟨rfl, h1, h2, h1, h2⟩

/-! ## Claims on what a recompute shows -/

theorem getElem?_placeButtons_all (rs : QSize) (hs : List (Option Nat))
    (bs : List QPushButton) (j : Nat) :
    (placeButtons rs hs bs)[j]? = bs[j]?.map (placeAll rs hs j) :=
  getElem?_placeButtons rs hs bs j

theorem placeAll_pos (rs rs1 : QSize) (hs : List (Option Nat)) (i k : Nat)
    (hi : i < BUTTON_COUNT) (hk : hs.getD i none = some k) (b b1 : QPushButton) :
    (placeAll rs hs k b).pos.x = buttonX rs ∧
      (placeAll rs hs k b).pos.y = (placeAll rs1 hs k b1).pos.y := by
  have hcases : i = 0 ∨ i = 1 ∨ i = 2 ∨ i = 3 := by
    unfold BUTTON_COUNT at hi
    omega
  unfold placeAll placeAt
  rcases hcases with h | h | h | h <;> subst h <;> rw [if_pos hk, if_pos hk] <;>
    split_ifs <;> exact ⟨rfl, rfl⟩

theorem placeAll_pos_eq (rs : QSize) (hs : List (Option Nat)) (i k : Nat)
    (hi : i < BUTTON_COUNT) (hk : hs.getD i none = some k) (b b1 : QPushButton) :
    (placeAll rs hs k b).pos = (placeAll rs hs k b1).pos := by
  have hcases : i = 0 ∨ i = 1 ∨ i = 2 ∨ i = 3 := by
    unfold BUTTON_COUNT at hi
    omega
  unfold placeAll placeAt
  rcases hcases with h | h | h | h <;> subst h <;> rw [if_pos hk, if_pos hk] <;>
    split_ifs <;> rfl

theorem handleButton_show (q : Sample) (w : VulkanWidget) (ov : OverlayWidget)
    (hReady : w.m_overlayInitialized = true) (hOv : w.overlayWidget = some ov)
    (hShow : showCondition q w = true) (i k : Nat)
    (hk : w.m_overlayButtons.getD i none = some k) :
    handleButton (updateOverlayGeometry q w) i =
      ov.buttons[k]?.map (placeAll q.containerSize w.m_overlayButtons k) := by
  rw [updateOverlayGeometry_show q w ov hReady hOv hShow]
  simp only [handleButton, hk]
  exact getElem?_placeButtons_all _ _ _ _

theorem handleButton_null (w : VulkanWidget) (i : Nat)
    (hk : w.m_overlayButtons.getD i none = none) : handleButton w i = none := by
  unfold handleButton
  cases w.overlayWidget with
  | none => rfl
  | some ov => simp only [hk]

theorem updateOverlayGeometry_handles (q : Sample) (w : VulkanWidget) :
    (updateOverlayGeometry q w).m_overlayButtons = w.m_overlayButtons := by
  cases hReady : w.m_overlayInitialized with
  | false => rw [updateOverlayGeometry_notReady q w hReady]
  | true =>
    cases hov : w.overlayWidget with
    | none => rw [updateOverlayGeometry_noOverlay q w hov]
    | some ov =>
      cases hShow : showCondition q w with
      | true => rw [updateOverlayGeometry_show q w ov hReady hov hShow]
      | false => rw [updateOverlayGeometry_hide q w ov hReady hov hShow]

/-- C17, as stated, fails: with a 40x40 render surface and an active, visible,
not minimized host window, a recompute on the ready widget shows the overlay,
at 40x40. -/
theorem updateOverlayGeometry_shows_degenerate :
    overlayShown (updateOverlayGeometry (sampleSized 40 40) readyWidget) = true ∧
      overlayRect (updateOverlayGeometry (sampleSized 40 40) readyWidget) =
        some { topLeft := { x := 100, y := 80 }, size := { width := 40, height := 40 } } := by
  decide

/-- C17, amended: the size threshold sits in the surface branch of
`eventFilter`, not in the recompute.  In a Ready state with the overlay
present, a SurfaceResize or SurfaceShow notification sampled with a surface
width or height of at most 50 leaves the overlay hidden and schedules nothing,
whatever the host window flags are; whether `updateOverlayGeometry` shows the
overlay does not depend on the surface size. -/
theorem degenerate_surface_hidden_by_filter (e : EventKind) (q : Sample) (w : VulkanWidget)
    (ov : OverlayWidget) (hReady : w.m_overlayInitialized = true)
    (hOv : w.overlayWidget = some ov)
    (he : e = EventKind.SurfaceResize ∨ e = EventKind.SurfaceShow)
    (hSmall : q.containerSize.width ≤ 50 ∨ q.containerSize.height ≤ 50) :
    (∃ w1, notify e q w = some w1 ∧ overlayShown w1 = false ∧
        w1.singleShots = w.singleShots) ∧
      ∀ s, overlayShown (updateOverlayGeometry { q with containerSize := s } w) =
        overlayShown (updateOverlayGeometry q w) := by
  constructor
  · have hSome : w.overlayWidget.isSome = true := by rw [hOv]; rfl
    have hc : ¬ (q.containerSize.width > 50 ∧ q.containerSize.height > 50) := by
      intro h
      rcases hSmall with h1 | h1
      · exact absurd h.1 (Int.not_lt.mpr h1)
      · exact absurd h.2 (Int.not_lt.mpr h1)
    have hsh : overlayShown (hideOverlayIfPresent w) = false := by
      rw [hideOverlayIfPresent_some w ov hOv]
      rfl
    refine ⟨hideOverlayIfPresent w, ?_, hsh, hideOverlayIfPresent_singleShots w⟩
    rcases he with h | h <;> subst h
    · simp only [notify]
      rw [eventFilter_container_ready EventType.Resize q w hReady,
        eventFilterContainer_small EventType.Resize q w (Or.inl rfl) hc,
        hideOverlayUnguarded_eq w hSome]
    · simp only [notify]
      rw [eventFilter_container_ready EventType.Show q w hReady,
        eventFilterContainer_small EventType.Show q w (Or.inr rfl) hc,
        hideOverlayUnguarded_eq w hSome]
  · intro s
    have hsc : showCondition { q with containerSize := s } w = showCondition q w := rfl
    cases hShow : showCondition q w with
    | true =>
      rw [updateOverlayGeometry_show q w ov hReady hOv hShow,
        updateOverlayGeometry_show _ w ov hReady hOv (hsc.trans hShow)]
      rfl
    | false =>
      rw [updateOverlayGeometry_hide q w ov hReady hOv hShow,
        updateOverlayGeometry_hide _ w ov hReady hOv (hsc.trans hShow)]

/-- C17 amended, on the ready widget: a SurfaceResize notification sampled at
40x40 leaves the overlay hidden and the schedule as it was. -/
theorem degenerate_surface_hidden_by_filter_witness :
    ∃ w1, notify EventKind.SurfaceResize (sampleSized 40 40) readyWidget = some w1 ∧
      overlayShown w1 = false ∧ w1.singleShots = readyWidget.singleShots :=
  (degenerate_surface_hidden_by_filter EventKind.SurfaceResize (sampleSized 40 40) readyWidget
    (setupOverlayProperties (createMissingButtons (overlayWith []))) (by decide) (by decide)
    (Or.inl rfl) (Or.inl (by decide))).1

theorem showCondition_of_flags (q : Sample) (w : VulkanWidget)
    (h1 : q.isActiveWindow = true) (h2 : q.isVisible = true) (h3 : q.isMinimized = false)
    (h4 : surfaceVisible q w = true) : showCondition q w = true := by
  simp [showCondition, h1, h2, h3, h4]

theorem stateChange_restored_then_fired (q2 q3 : Sample) (v : VulkanWidget)
    (ov : OverlayWidget) (hReady : v.m_overlayInitialized = true)
    (hOv : v.overlayWidget = some ov)
    (h2m : q2.isMinimized = false) (h2v : q2.isVisible = true)
    (hShow : showCondition q3 v = true) :
    notify EventKind.StateChange q2 v = some (scheduleSingleShot 50 Task.recompute v) ∧
      fireSingleShot v.singleShots.length q3 (scheduleSingleShot 50 Task.recompute v) =
        updateOverlayGeometry q3 v ∧
      overlayShown (updateOverlayGeometry q3 v) = true ∧
      overlayRect (updateOverlayGeometry q3 v) =
        some { topLeft := q3.containerTopLeft, size := q3.containerSize } := by
  have hc : ¬ ((q2.isMinimized || !q2.isVisible) = true) := by simp [h2m, h2v]
  refine ⟨?_, fireSingleShot_last q3 v _, ?_, ?_⟩
  · simp only [notify]
    rw [changeEvent_stateChange_ready q2 v hReady, if_neg hc]
  · rw [updateOverlayGeometry_show q3 v ov hReady hOv hShow]
    rfl
  · rw [updateOverlayGeometry_show q3 v ov hReady hOv hShow]
    rfl

/-- C18: in a Ready state with the overlay shown, a StateChange notification
sampled with the host window minimized leaves the overlay hidden (the state
stays Ready, the overlay present).  In any later Ready state with the overlay
present, a StateChange notification sampled with the host window visible and
not minimized schedules one recompute with delay 50, and when that recompute
fires against a sample with the host window active, visible, not minimized and
the render surface visible, the overlay is shown with the rectangle of the
render surface as sampled at the firing. -/
theorem minimize_restore_scenario (w : VulkanWidget) (q1 : Sample)
    (hReady : w.m_overlayInitialized = true) (hShown : overlayShown w = true)
    (hMin : q1.isMinimized = true) :
    (∃ w1, notify EventKind.StateChange q1 w = some w1 ∧ overlayShown w1 = false ∧
        w1.m_overlayInitialized = true ∧ w1.overlayWidget.isSome = true) ∧
      ∀ (v : VulkanWidget) (q2 q3 : Sample), v.m_overlayInitialized = true →
        v.overlayWidget.isSome = true →
        q2.isMinimized = false → q2.isVisible = true →
        q3.isActiveWindow = true → q3.isVisible = true → q3.isMinimized = false →
        surfaceVisible q3 v = true →
        ∃ v1, notify EventKind.StateChange q2 v = some v1 ∧
          v1.singleShots = v.singleShots ++ [recomputeAfter 50] ∧
          overlayShown (fireSingleShot v.singleShots.length q3 v1) = true ∧
          overlayRect (fireSingleShot v.singleShots.length q3 v1) =
            some { topLeft := q3.containerTopLeft, size := q3.containerSize } := by
  constructor
  · cases hov : w.overlayWidget with
    | none => simp [overlayShown, hov] at hShown
    | some ov =>
      have hSome : w.overlayWidget.isSome = true := by rw [hov]; rfl
      have hc : (q1.isMinimized || !q1.isVisible) = true := by simp [hMin]
      refine ⟨hideOverlayIfPresent w, ?_, ?_, ?_, ?_⟩
      · simp only [notify]
        rw [changeEvent_stateChange_ready q1 w hReady, if_pos hc,
          hideOverlayUnguarded_eq w hSome]
      · rw [hideOverlayIfPresent_some w ov hov]
        rfl
      · rw [hideOverlayIfPresent_initialized, hReady]
      · rw [hideOverlayIfPresent_some w ov hov]
        rfl
  · intro v q2 q3 hvR hvO h2m h2v h3a h3v h3m h3s
    obtain ⟨ov, hov⟩ := Option.isSome_iff_exists.mp hvO
    have hShow := showCondition_of_flags q3 v h3a h3v h3m h3s
    obtain ⟨ha, hb, hc, hd⟩ :=
      stateChange_restored_then_fired q2 q3 v ov hvR hov h2m h2v hShow
    refine ⟨scheduleSingleShot 50 Task.recompute v, ha, rfl, ?_, ?_⟩
    · rw [hb]; exact hc
    · rw [hb]; exact hd

/-- C18 on the ready widget laid out and shown at 800x600: minimizing hides
the overlay, and a restore followed by the firing of its recompute against a
400x300 surface shows it again at 400x300. -/
theorem minimize_restore_scenario_witness :
    (∃ w1, notify EventKind.StateChange (sampleOf true true true true)
        (updateOverlayGeometry (sampleSized 800 600) readyWidget) = some w1 ∧
      overlayShown w1 = false ∧ w1.m_overlayInitialized = true ∧
      w1.overlayWidget.isSome = true) ∧
    (∃ v1, notify EventKind.StateChange (sampleSized 400 300)
        (hideOverlayIfPresent (updateOverlayGeometry (sampleSized 800 600) readyWidget)) =
          some v1 ∧
      v1.singleShots = [{ delay := 50, task := Task.firstLayout }, recomputeAfter 50] ∧
      overlayShown (fireSingleShot 1 (sampleSized 400 300) v1) = true ∧
      overlayRect (fireSingleShot 1 (sampleSized 400 300) v1) =
        some { topLeft := { x := 100, y := 80 }, size := { width := 400, height := 300 } }) := by
  have h := minimize_restore_scenario (updateOverlayGeometry (sampleSized 800 600) readyWidget)
    (sampleOf true true true true) (by decide) (by decide) (by decide)
  refine ⟨h.1, ?_⟩
  obtain ⟨v1, h1, h2, h3, h4⟩ := h.2
    (hideOverlayIfPresent (updateOverlayGeometry (sampleSized 800 600) readyWidget))
    (sampleSized 400 300) (sampleSized 400 300) (by decide) (by decide) (by decide)
    (by decide) (by decide) (by decide) (by decide) (by decide)
  exact ⟨v1, h1, h2, h3, h4⟩

/-- C19: two Ready states with the same button handles and equally many
button children, whatever rectangle, visibility and button positions their
overlays held before, have after a recompute against the same sample for which
the show condition holds the same overlay rectangle and, behind every handle,
a button at the same position.  The `y` of the button behind a handle does not
depend on the sampled surface.  With the handles as `initializeButtonArray`
leaves them, a recompute against a 400x300 surface gives a 400x300 rectangle
and the buttons at `x = 270`, `y = 10, 60, 110, 160`. -/
theorem recompute_ignores_previous_layout (q : Sample) (w1 w2 : VulkanWidget)
    (ov1 ov2 : OverlayWidget)
    (hR1 : w1.m_overlayInitialized = true) (hR2 : w2.m_overlayInitialized = true)
    (hO1 : w1.overlayWidget = some ov1) (hO2 : w2.overlayWidget = some ov2)
    (hH : w1.m_overlayButtons = w2.m_overlayButtons)
    (hL : ov1.buttons.length = ov2.buttons.length)
    (hS1 : showCondition q w1 = true) (hS2 : showCondition q w2 = true) :
    overlayRect (updateOverlayGeometry q w1) = overlayRect (updateOverlayGeometry q w2) ∧
      (∀ i, i < BUTTON_COUNT →
        (handleButton (updateOverlayGeometry q w1) i).map (fun b => b.pos) =
          (handleButton (updateOverlayGeometry q w2) i).map (fun b => b.pos)) ∧
      (∀ q1, showCondition q1 w1 = true → ∀ i, i < BUTTON_COUNT →
        (handleButton (updateOverlayGeometry q w1) i).map (fun b => b.pos.y) =
          (handleButton (updateOverlayGeometry q1 w1) i).map (fun b => b.pos.y)) ∧
      (q.containerSize = { width := 400, height := 300 } →
        w1.m_overlayButtons = [some 0, some 1, some 2, some 3] →
        BUTTON_COUNT ≤ ov1.buttons.length →
        overlayRect (updateOverlayGeometry q w1) =
            some { topLeft := q.containerTopLeft, size := { width := 400, height := 300 } } ∧
          (List.range BUTTON_COUNT).map
              (fun i => (handleButton (updateOverlayGeometry q w1) i).map (fun b => b.pos)) =
            [some { x := 270, y := 10 }, some { x := 270, y := 60 },
              some { x := 270, y := 110 }, some { x := 270, y := 160 }]) := by
  have hrect1 : overlayRect (updateOverlayGeometry q w1) =
      some { topLeft := q.containerTopLeft, size := q.containerSize } := by
    rw [updateOverlayGeometry_show q w1 ov1 hR1 hO1 hS1]
    rfl
  have hrect2 : overlayRect (updateOverlayGeometry q w2) =
      some { topLeft := q.containerTopLeft, size := q.containerSize } := by
    rw [updateOverlayGeometry_show q w2 ov2 hR2 hO2 hS2]
    rfl
  refine ⟨hrect1.trans hrect2.symm, ?_, ?_, ?_⟩
  · intro i hi
    cases hk : w1.m_overlayButtons.getD i none with
    | none =>
      have hk1 : (updateOverlayGeometry q w1).m_overlayButtons.getD i none = none := by
        rw [updateOverlayGeometry_handles]; exact hk
      have hk2 : (updateOverlayGeometry q w2).m_overlayButtons.getD i none = none := by
        rw [updateOverlayGeometry_handles, ← hH]; exact hk
      rw [handleButton_null _ i hk1, handleButton_null _ i hk2]
    | some k =>
      rw [handleButton_show q w1 ov1 hR1 hO1 hS1 i k hk,
        handleButton_show q w2 ov2 hR2 hO2 hS2 i k (hH ▸ hk), ← hH]
      by_cases hlt : k < ov1.buttons.length
      · have hlt2 : k < ov2.buttons.length := hL ▸ hlt
        rw [List.getElem?_eq_getElem hlt, List.getElem?_eq_getElem hlt2]
        simp only [Option.map_some', Option.some.injEq]
        exact placeAll_pos_eq q.containerSize w1.m_overlayButtons i k hi hk _ _
      · have hn1 : ov1.buttons[k]? = none := List.getElem?_eq_none (Nat.le_of_not_lt hlt)
        have hn2 : ov2.buttons[k]? = none :=
          List.getElem?_eq_none (hL ▸ Nat.le_of_not_lt hlt)
        rw [hn1, hn2]
  · intro q1 hS i hi
    cases hk : w1.m_overlayButtons.getD i none with
    | none =>
      have hk1 : (updateOverlayGeometry q w1).m_overlayButtons.getD i none = none := by
        rw [updateOverlayGeometry_handles]; exact hk
      have hk2 : (updateOverlayGeometry q1 w1).m_overlayButtons.getD i none = none := by
        rw [updateOverlayGeometry_handles]; exact hk
      rw [handleButton_null _ i hk1, handleButton_null _ i hk2]
    | some k =>
      rw [handleButton_show q w1 ov1 hR1 hO1 hS1 i k hk,
        handleButton_show q1 w1 ov1 hR1 hO1 hS i k hk]
      cases ov1.buttons[k]? with
      | none => rfl
      | some b =>
        simp only [Option.map_some', Option.some.injEq]
        exact (placeAll_pos q.containerSize q1.containerSize w1.m_overlayButtons i k hi hk
          b b).2
  · intro hsz hhs hlen
    refine ⟨by rw [hrect1, hsz], ?_⟩
    have hr : List.range BUTTON_COUNT = [0, 1, 2, 3] := by decide
    have hpos : ∀ i, i < BUTTON_COUNT →
        (handleButton (updateOverlayGeometry q w1) i).map (fun b => b.pos) =
          some { x := 270, y := buttonY i } := by
      intro i hi
      have hcases : i = 0 ∨ i = 1 ∨ i = 2 ∨ i = 3 := by
        unfold BUTTON_COUNT at hi
        omega
      have hk : w1.m_overlayButtons.getD i none = some i := by
        rw [hhs]
        rcases hcases with h | h | h | h <;> subst h <;> rfl
      have hne : ∀ j, j < BUTTON_COUNT → j ≠ i →
          w1.m_overlayButtons.getD j none ≠ some i := by
        intro j hj hji
        have hjc : j = 0 ∨ j = 1 ∨ j = 2 ∨ j = 3 := by
          unfold BUTTON_COUNT at hj
          omega
        rw [hhs]
        rcases hjc with h | h | h | h <;> subst h <;>
          simp only [List.getD_cons_zero, List.getD_cons_succ, ne_eq, Option.some.injEq] <;>
          omega
      rw [updateOverlayGeometry_show q w1 ov1 hR1 hO1 hS1]
      simp only [handleButton, hk]
      rw [getElem?_placeButtons_of_unique q.containerSize _ _ i i hi hk hne,
        List.getElem?_eq_getElem (Nat.lt_of_lt_of_le hi hlen), hsz]
      rfl
    rw [hr]
    simp only [List.map_cons, List.map_nil]
    rw [hpos 0 (by decide), hpos 1 (by decide), hpos 2 (by decide), hpos 3 (by decide)]
    rfl

/-- C19 on the ready widget: laid out for 800x600 or never laid out, a
recompute against 400x300 gives the same rectangle, 400x300, and the buttons
at `x = 270`, `y = 10, 60, 110, 160`. -/
theorem recompute_ignores_previous_layout_witness :
    overlayRect (updateOverlayGeometry (sampleSized 400 300)
        (updateOverlayGeometry (sampleSized 800 600) readyWidget)) =
      overlayRect (updateOverlayGeometry (sampleSized 400 300) readyWidget) ∧
    overlayRect (updateOverlayGeometry (sampleSized 400 300)
        (updateOverlayGeometry (sampleSized 800 600) readyWidget)) =
      some { topLeft := { x := 100, y := 80 }, size := { width := 400, height := 300 } } ∧
    (List.range BUTTON_COUNT).map
        (fun i => (handleButton (updateOverlayGeometry (sampleSized 400 300)
          (updateOverlayGeometry (sampleSized 800 600) readyWidget)) i).map (fun b => b.pos)) =
      [some { x := 270, y := 10 }, some { x := 270, y := 60 },
        some { x := 270, y := 110 }, some { x := 270, y := 160 }] := by
  have h := recompute_ignores_previous_layout (sampleSized 400 300)
    (updateOverlayGeometry (sampleSized 800 600) readyWidget) readyWidget
    ((updateOverlayGeometry (sampleSized 800 600) readyWidget).overlayWidget.getD
      (overlayWith []))
    (setupOverlayProperties (createMissingButtons (overlayWith [])))
    (by decide) (by decide) (by decide) (by decide) (by decide) (by decide) (by decide)
    (by decide)
  have h4 := h.2.2.2 rfl (by decide) (by decide)
  exact ⟨h.1, h4.1, h4.2⟩

/-- C20, as stated, fails: a recompute on the ready widget against a minimized
host window with an 800x600 surface at (100, 80) leaves the overlay rectangle
at the 100x30 rectangle at (0, 0) it held before, and the buttons at (0, 0). -/
theorem updateOverlayGeometry_hide_keeps_rect :
    showCondition (sampleOf true true true true) readyWidget = false ∧
      overlayRect (updateOverlayGeometry (sampleOf true true true true) readyWidget) =
        some { topLeft := { x := 0, y := 0 }, size := { width := 100, height := 30 } } ∧
      ¬ (overlayRect (updateOverlayGeometry (sampleOf true true true true) readyWidget) =
        some { topLeft := { x := 100, y := 80 }, size := { width := 800, height := 600 } }) ∧
      buttonPositions (updateOverlayGeometry (sampleOf true true true true) readyWidget) =
        [{ x := 0, y := 0 }, { x := 0, y := 0 }, { x := 0, y := 0 }, { x := 0, y := 0 }] := by
  decide

/-- C20, amended: in a Ready state with the overlay present, a recompute
against a sample for which the show condition is false hides the overlay and
leaves its rectangle and the positions of its buttons as they were; the
sampled surface bounds are not applied.  The next recompute for which the show
condition holds applies the bounds sampled then, so the overlay is never shown
with the rectangle it held while hidden. -/
theorem updateOverlayGeometry_hide_branch (q : Sample) (w : VulkanWidget) (ov : OverlayWidget)
    (hReady : w.m_overlayInitialized = true) (hOv : w.overlayWidget = some ov)
    (hHide : showCondition q w = false) :
    overlayShown (updateOverlayGeometry q w) = false ∧
      overlayRect (updateOverlayGeometry q w) = overlayRect w ∧
      buttonPositions (updateOverlayGeometry q w) = buttonPositions w ∧
      ∀ q1, showCondition q1 w = true →
        overlayShown (updateOverlayGeometry q1 (updateOverlayGeometry q w)) = true ∧
        overlayRect (updateOverlayGeometry q1 (updateOverlayGeometry q w)) =
          some { topLeft := q1.containerTopLeft, size := q1.containerSize } := by
  have h := updateOverlayGeometry_hide q w ov hReady hOv hHide
  have hrect : overlayRect w = some ov.geometry := by simp [overlayRect, hOv]
  have hpos : buttonPositions w = ov.buttons.map (fun b => b.pos) := by
    simp [buttonPositions, hOv]
  refine ⟨by rw [h]; rfl, by rw [h, hrect]; rfl, by rw [h, hpos]; rfl, ?_⟩
  intro q1 hShow
  have hR : (updateOverlayGeometry q w).m_overlayInitialized = true := by
    rw [h]; exact hReady
  have hO : (updateOverlayGeometry q w).overlayWidget = some { ov with visible := false } := by
    rw [h]
  have hS : showCondition q1 (updateOverlayGeometry q w) = true := by
    rw [h]; exact hShow
  rw [updateOverlayGeometry_show q1 (updateOverlayGeometry q w) _ hR hO hS]
  exact ⟨rfl, rfl⟩

/-- C20 amended, on the ready widget with a minimized host window: hidden,
rectangle and button positions as before. -/
theorem updateOverlayGeometry_hide_branch_witness :
    overlayShown (updateOverlayGeometry (sampleOf true true true true) readyWidget) = false ∧
      overlayRect (updateOverlayGeometry (sampleOf true true true true) readyWidget) =
        overlayRect readyWidget ∧
      buttonPositions (updateOverlayGeometry (sampleOf true true true true) readyWidget) =
        buttonPositions readyWidget := by
  have h := updateOverlayGeometry_hide_branch (sampleOf true true true true) readyWidget
    (setupOverlayProperties (createMissingButtons (overlayWith []))) (by decide) (by decide)
    (by decide)
  exact ⟨h.1, h.2.1, h.2.2.1⟩

/-! ## Claims on settling -/

theorem fireSingleShot_none (i : Nat) (q : Sample) (w : VulkanWidget)
    (h : w.singleShots.length ≤ i) : fireSingleShot i q w = w := by
  unfold fireSingleShot
  rw [List.getElem?_eq_none h]

theorem handler_cases (op : Op) (q : Sample) (w : VulkanWidget)
    (hop : isHandler op = true) (hReady : w.m_overlayInitialized = true)
    (hOv : w.overlayWidget.isSome = true) :
    (∃ d, step op q w = some (scheduleSingleShot d Task.recompute w)) ∨
      step op q w = some (hideOverlayIfPresent w) ∨ step op q w = some w := by
  have hsched : ∀ (f : VulkanWidget → VulkanWidget),
      (∀ v, f v = if v.m_overlayInitialized = true
        then scheduleSingleShot 10 Task.recompute v else v) →
      some (f w) = some (scheduleSingleShot 10 Task.recompute w) := by
    intro f hf
    rw [hf, if_pos hReady]
  cases op with
  | initializeOverlaySystem => simp [isHandler] at hop
  | timerTimeout k => simp [isHandler] at hop
  | setupOverlayWidget => simp [isHandler] at hop
  | updateOverlayGeometry => simp [isHandler] at hop
  | fireSingleShot i => simp [isHandler] at hop
  | vulkanWindowDestroyed => simp [isHandler] at hop
  | focusOutEvent => exact Or.inr (Or.inl rfl)
  | closeEvent => exact Or.inr (Or.inl rfl)
  | focusInEvent => exact Or.inl ⟨10, hsched focusInEvent (fun _ => rfl)⟩
  | resizeEvent => exact Or.inl ⟨10, hsched resizeEvent (fun _ => rfl)⟩
  | moveEvent => exact Or.inl ⟨10, hsched moveEvent (fun _ => rfl)⟩
  | changeEvent t =>
    show (∃ d, changeEvent t q w = _) ∨ changeEvent t q w = _ ∨ changeEvent t q w = _
    by_cases ht : t = EventType.WindowStateChange
    · subst ht
      rw [changeEvent_stateChange_ready q w hReady]
      by_cases hc : (q.isMinimized || !q.isVisible) = true
      · rw [if_pos hc, hideOverlayUnguarded_eq w hOv]
        exact Or.inr (Or.inl rfl)
      · rw [if_neg hc]
        exact Or.inl ⟨50, rfl⟩
    · unfold changeEvent
      rw [if_neg (by simp [ht])]
      by_cases ha : t = EventType.ActivationChange
      · rw [if_pos ha, if_pos hReady]
        exact Or.inl ⟨10, rfl⟩
      · rw [if_neg ha]
        exact Or.inr (Or.inr rfl)
  | eventFilter x t =>
    show (∃ d, eventFilter x t q w = _) ∨ eventFilter x t q w = _ ∨ eventFilter x t q w = _
    cases x with
    | self =>
      rw [eventFilter_self_ready t q w hReady]
      cases t with
      | WindowActivate => exact Or.inl ⟨10, rfl⟩
      | WindowDeactivate => exact Or.inr (Or.inl rfl)
      | Show =>
        simp only [eventFilterWindow]
        split
        · exact Or.inl ⟨50, rfl⟩
        · exact Or.inr (Or.inr rfl)
      | Hide => exact Or.inr (Or.inl rfl)
      | Resize => exact Or.inr (Or.inr rfl)
      | WindowStateChange => exact Or.inr (Or.inr rfl)
      | ActivationChange => exact Or.inr (Or.inr rfl)
      | Other => exact Or.inr (Or.inr rfl)
    | vulkanContainer =>
      rw [eventFilter_container_ready t q w hReady]
      by_cases ht : t = EventType.Resize ∨ t = EventType.Show
      · by_cases hc : q.containerSize.width > 50 ∧ q.containerSize.height > 50
        · rw [eventFilterContainer_large t q w ht hc]
          exact Or.inl ⟨10, rfl⟩
        · rw [eventFilterContainer_small t q w ht hc, hideOverlayUnguarded_eq w hOv]
          exact Or.inr (Or.inl rfl)
      · unfold eventFilterContainer
        rw [if_neg (by simpa using ht)]
        exact Or.inr (Or.inr rfl)
    | other =>
      unfold eventFilter
      rw [if_pos hReady]
      exact Or.inr (Or.inr rfl)

theorem overlayShown_updateOverlayGeometry (q : Sample) (w : VulkanWidget)
    (hReady : w.m_overlayInitialized = true) (hOv : w.overlayWidget.isSome = true) :
    overlayShown (updateOverlayGeometry q w) = showCondition q w ∧
      (showCondition q w = true → overlayRect (updateOverlayGeometry q w) =
        some { topLeft := q.containerTopLeft, size := q.containerSize }) := by
  obtain ⟨ov, hov⟩ := Option.isSome_iff_exists.mp hOv
  cases hShow : showCondition q w with
  | true =>
    rw [updateOverlayGeometry_show q w ov hReady hov hShow]
    exact ⟨rfl, fun _ => rfl⟩
  | false =>
    rw [updateOverlayGeometry_hide q w ov hReady hov hShow]
    exact ⟨rfl, fun h => absurd h (by decide)⟩

/-- C21, as stated, fails: on the ready widget shown at 800x600, with the host
window active, visible, not minimized and the surface visible, `focusOutEvent`
schedules nothing and leaves the overlay hidden, although the show condition
holds for the sampled state; a Deactivate notification does the same. -/
theorem focusOut_settles_hidden :
    showCondition (sampleSized 800 600)
        (updateOverlayGeometry (sampleSized 800 600) readyWidget) = true ∧
      (settle Op.focusOutEvent (sampleSized 800 600)
        (updateOverlayGeometry (sampleSized 800 600) readyWidget)).map overlayShown =
        some false ∧
      (settle (Op.eventFilter Watched.self EventType.WindowDeactivate) (sampleSized 800 600)
        (updateOverlayGeometry (sampleSized 800 600) readyWidget)).map overlayShown =
        some false := by
  decide

theorem settle_schedule (op : Op) (q : Sample) (w : VulkanWidget) (d : Nat)
    (h : step op q w = some (scheduleSingleShot d Task.recompute w)) :
    settle op q w = some (updateOverlayGeometry q w) := by
  unfold settle
  rw [h, Option.map_some', scheduleSingleShot_eq, fireSingleShot_last]
  rfl

theorem settle_hide (op : Op) (q : Sample) (w : VulkanWidget)
    (h : step op q w = some (hideOverlayIfPresent w)) :
    settle op q w = some (hideOverlayIfPresent w) := by
  unfold settle
  rw [h, Option.map_some',
    fireSingleShot_none _ q _ (by rw [hideOverlayIfPresent_singleShots])]

theorem settle_same (op : Op) (q : Sample) (w : VulkanWidget)
    (h : step op q w = some w) : settle op q w = some w := by
  unfold settle
  rw [h, Option.map_some', fireSingleShot_none _ q _ (Nat.le_refl _)]

theorem schedule_step_ready (f : VulkanWidget → VulkanWidget) (w : VulkanWidget)
    (hf : ∀ v, f v = if v.m_overlayInitialized = true
      then scheduleSingleShot 10 Task.recompute v else v)
    (hReady : w.m_overlayInitialized = true) :
    some (f w) = some (scheduleSingleShot 10 Task.recompute w) := by
  rw [hf, if_pos hReady]

theorem changeEvent_activation_ready (q : Sample) (w : VulkanWidget)
    (hReady : w.m_overlayInitialized = true) :
    changeEvent EventType.ActivationChange q w =
      some (scheduleSingleShot 10 Task.recompute w) := by
  unfold changeEvent
  rw [if_neg (by simp), if_pos rfl, if_pos hReady]

theorem changeEvent_unhandled (t : EventType) (q : Sample) (w : VulkanWidget)
    (h1 : t ≠ EventType.WindowStateChange) (h2 : t ≠ EventType.ActivationChange) :
    changeEvent t q w = some w := by
  unfold changeEvent
  rw [if_neg (by simp [h1]), if_neg h2]

theorem eventFilterContainer_unhandled (t : EventType) (q : Sample) (w : VulkanWidget)
    (h1 : t ≠ EventType.Resize) (h2 : t ≠ EventType.Show) :
    eventFilterContainer t q w = some w := by
  unfold eventFilterContainer
  rw [if_neg (by simp [h1, h2])]

theorem eventFilter_other_ready (t : EventType) (q : Sample) (w : VulkanWidget)
    (hReady : w.m_overlayInitialized = true) :
    eventFilter Watched.other t q w = some w := by
  unfold eventFilter
  rw [if_pos hReady]
  rfl

/-- C21, amended: in a Ready state with the overlay present, run a
window-system handler and let the recompute it scheduled, if any, fire against
the unchanged sample.  After `focusInEvent`, `resizeEvent`, `moveEvent`, an
activation change, a WindowActivate, a Show of the host window with the window
active, a window state change with the window visible and not minimized, and a
surface Resize or Show above 50x50, the state is the one
`updateOverlayGeometry` gives for the sample: the overlay is shown exactly when
the show condition holds for the sample, and if shown its rectangle is the
sampled surface bounds.  After `focusOutEvent`, `closeEvent`, a
WindowDeactivate, a Hide of the host window, a window state change with the
window minimized or not visible, and a surface Resize or Show with a width or
height of at most 50, nothing was scheduled and the overlay is hidden, whatever
the show condition is.  After a Show of the host window with the window
inactive, and after every event type no branch handles, the state is as it
was. -/
theorem handler_settles (op : Op) (q : Sample) (w : VulkanWidget)
    (hop : isHandler op = true) (hReady : w.m_overlayInitialized = true)
    (hOv : w.overlayWidget.isSome = true) :
    settle op q w = some
        (match op with
          | Op.focusInEvent => updateOverlayGeometry q w
          | Op.resizeEvent => updateOverlayGeometry q w
          | Op.moveEvent => updateOverlayGeometry q w
          | Op.changeEvent EventType.ActivationChange => updateOverlayGeometry q w
          | Op.changeEvent EventType.WindowStateChange =>
            if (q.isMinimized || !q.isVisible) = true then hideOverlayIfPresent w
            else updateOverlayGeometry q w
          | Op.eventFilter Watched.self EventType.WindowActivate =>
            updateOverlayGeometry q w
          | Op.eventFilter Watched.self EventType.Show =>
            if q.isActiveWindow = true then updateOverlayGeometry q w else w
          | Op.eventFilter Watched.self EventType.WindowDeactivate =>
            hideOverlayIfPresent w
          | Op.eventFilter Watched.self EventType.Hide => hideOverlayIfPresent w
          | Op.eventFilter Watched.vulkanContainer EventType.Resize =>
            if q.containerSize.width > 50 ∧ q.containerSize.height > 50
            then updateOverlayGeometry q w else hideOverlayIfPresent w
          | Op.eventFilter Watched.vulkanContainer EventType.Show =>
            if q.containerSize.width > 50 ∧ q.containerSize.height > 50
            then updateOverlayGeometry q w else hideOverlayIfPresent w
          | Op.focusOutEvent => hideOverlayIfPresent w
          | Op.closeEvent => hideOverlayIfPresent w
          | _ => w) ∧
      overlayShown (updateOverlayGeometry q w) = showCondition q w ∧
      (overlayShown (updateOverlayGeometry q w) = true →
        overlayRect (updateOverlayGeometry q w) =
          some { topLeft := q.containerTopLeft, size := q.containerSize }) ∧
      overlayShown (hideOverlayIfPresent w) = false ∧
      (hideOverlayIfPresent w).singleShots = w.singleShots := by
  have hfacts := overlayShown_updateOverlayGeometry q w hReady hOv
  obtain ⟨ov, hov⟩ := Option.isSome_iff_exists.mp hOv
  have hhidden : overlayShown (hideOverlayIfPresent w) = false := by
    rw [hideOverlayIfPresent_some w ov hov]
    rfl
  refine ⟨?_, hfacts.1, fun h => hfacts.2 (hfacts.1 ▸ h), hhidden,
    hideOverlayIfPresent_singleShots w⟩
  have hcontainer : ∀ t, t = EventType.Resize ∨ t = EventType.Show →
      settle (Op.eventFilter Watched.vulkanContainer t) q w = some
        (if q.containerSize.width > 50 ∧ q.containerSize.height > 50
          then updateOverlayGeometry q w else hideOverlayIfPresent w) := by
    intro t ht
    have hef : step (Op.eventFilter Watched.vulkanContainer t) q w =
        eventFilterContainer t q w := eventFilter_container_ready t q w hReady
    by_cases hc : q.containerSize.width > 50 ∧ q.containerSize.height > 50
    · rw [if_pos hc]
      exact settle_schedule _ q w 10 (hef.trans (eventFilterContainer_large t q w ht hc))
    · rw [if_neg hc]
      exact settle_hide _ q w
        ((hef.trans (eventFilterContainer_small t q w ht hc)).trans
          (hideOverlayUnguarded_eq w hOv))
  have hcontainerSame : ∀ t, t ≠ EventType.Resize → t ≠ EventType.Show →
      settle (Op.eventFilter Watched.vulkanContainer t) q w = some w := by
    intro t h1 h2
    exact settle_same _ q w
      ((eventFilter_container_ready t q w hReady).trans
        (eventFilterContainer_unhandled t q w h1 h2))
  have hself : ∀ t, step (Op.eventFilter Watched.self t) q w =
      some (eventFilterWindow t q w) := fun t => eventFilter_self_ready t q w hReady
  have hother : ∀ t, settle (Op.eventFilter Watched.other t) q w = some w :=
    fun t => settle_same _ q w (eventFilter_other_ready t q w hReady)
  cases op with
  | initializeOverlaySystem => simp [isHandler] at hop
  | timerTimeout k => simp [isHandler] at hop
  | setupOverlayWidget => simp [isHandler] at hop
  | updateOverlayGeometry => simp [isHandler] at hop
  | fireSingleShot i => simp [isHandler] at hop
  | vulkanWindowDestroyed => simp [isHandler] at hop
  | focusOutEvent => exact settle_hide _ q w rfl
  | closeEvent => exact settle_hide _ q w rfl
  | focusInEvent =>
    exact settle_schedule _ q w 10
      (schedule_step_ready focusInEvent w (fun _ => rfl) hReady)
  | resizeEvent =>
    exact settle_schedule _ q w 10
      (schedule_step_ready resizeEvent w (fun _ => rfl) hReady)
  | moveEvent =>
    exact settle_schedule _ q w 10 (schedule_step_ready moveEvent w (fun _ => rfl) hReady)
  | changeEvent t =>
    cases t with
    | WindowStateChange =>
      have hce : step (Op.changeEvent EventType.WindowStateChange) q w = _ :=
        changeEvent_stateChange_ready q w hReady
      show settle _ q w = some (if (q.isMinimized || !q.isVisible) = true
        then hideOverlayIfPresent w else updateOverlayGeometry q w)
      by_cases hc : (q.isMinimized || !q.isVisible) = true
      · rw [if_pos hc]
        rw [if_pos hc, hideOverlayUnguarded_eq w hOv] at hce
        exact settle_hide _ q w hce
      · rw [if_neg hc]
        rw [if_neg hc] at hce
        exact settle_schedule _ q w 50 hce
    | ActivationChange =>
      exact settle_schedule _ q w 10 (changeEvent_activation_ready q w hReady)
    | WindowActivate =>
      exact settle_same _ q w (changeEvent_unhandled _ q w (by decide) (by decide))
    | WindowDeactivate =>
      exact settle_same _ q w (changeEvent_unhandled _ q w (by decide) (by decide))
    | Show => exact settle_same _ q w (changeEvent_unhandled _ q w (by decide) (by decide))
    | Hide => exact settle_same _ q w (changeEvent_unhandled _ q w (by decide) (by decide))
    | Resize => exact settle_same _ q w (changeEvent_unhandled _ q w (by decide) (by decide))
    | Other => exact settle_same _ q w (changeEvent_unhandled _ q w (by decide) (by decide))
  | eventFilter x t =>
    cases x with
    | self =>
      cases t with
      | WindowActivate => exact settle_schedule _ q w 10 (hself _)
      | WindowDeactivate => exact settle_hide _ q w (hself _)
      | Hide => exact settle_hide _ q w (hself _)
      | Show =>
        show settle _ q w = some (if q.isActiveWindow = true
          then updateOverlayGeometry q w else w)
        have hs := hself EventType.Show
        simp only [eventFilterWindow] at hs
        by_cases hc : q.isActiveWindow = true
        · rw [if_pos hc]
          rw [if_pos hc] at hs
          exact settle_schedule _ q w 50 hs
        · rw [if_neg hc]
          rw [if_neg hc] at hs
          exact settle_same _ q w hs
      | Resize => exact settle_same _ q w (hself _)
      | WindowStateChange => exact settle_same _ q w (hself _)
      | ActivationChange => exact settle_same _ q w (hself _)
      | Other => exact settle_same _ q w (hself _)
    | vulkanContainer =>
      cases t with
      | Resize => exact hcontainer _ (Or.inl rfl)
      | Show => exact hcontainer _ (Or.inr rfl)
      | WindowActivate => exact hcontainerSame _ (by decide) (by decide)
      | WindowDeactivate => exact hcontainerSame _ (by decide) (by decide)
      | Hide => exact hcontainerSame _ (by decide) (by decide)
      | WindowStateChange => exact hcontainerSame _ (by decide) (by decide)
      | ActivationChange => exact hcontainerSame _ (by decide) (by decide)
      | Other => exact hcontainerSame _ (by decide) (by decide)
    | other =>
      cases t <;> exact hother _

/-- C21 amended, on the ready widget: after a Resize and the recompute it
scheduled, the state is the recomputed one, shown at the sampled 400x300
bounds; after `focusInEvent` likewise; after `focusOutEvent` the overlay is
hidden. -/
theorem handler_settles_witness :
    settle Op.resizeEvent (sampleSized 400 300) readyWidget =
        some (updateOverlayGeometry (sampleSized 400 300) readyWidget) ∧
      settle Op.focusInEvent (sampleSized 400 300) readyWidget =
        some (updateOverlayGeometry (sampleSized 400 300) readyWidget) ∧
      settle Op.focusOutEvent (sampleSized 400 300) readyWidget =
        some (hideOverlayIfPresent readyWidget) ∧
      overlayShown (updateOverlayGeometry (sampleSized 400 300) readyWidget) = true ∧
      overlayRect (updateOverlayGeometry (sampleSized 400 300) readyWidget) =
        some
          { topLeft := { x := 100, y := 80 }, size := { width := 400, height := 300 } } := by
  have h := handler_settles Op.resizeEvent (sampleSized 400 300) readyWidget rfl
    (by decide) (by decide)
  have h1 := handler_settles Op.focusInEvent (sampleSized 400 300) readyWidget rfl
    (by decide) (by decide)
  have h2 := handler_settles Op.focusOutEvent (sampleSized 400 300) readyWidget rfl
    (by decide) (by decide)
  have hshown : overlayShown (updateOverlayGeometry (sampleSized 400 300) readyWidget) =
      true := by
    rw [h.2.1]
    decide
  exact ⟨h.1, h1.1, h2.1, hshown, h.2.2.1 hshown⟩

/-! ## Reachable states -/

theorem length_placeButtons (rs : QSize) (hs : List (Option Nat)) (bs : List QPushButton) :
    (placeButtons rs hs bs).length = bs.length := by
  have hstep : ∀ (l : List QPushButton) (i : Nat), (placeStep rs hs l i).length = l.length := by
    intro l i
    unfold placeStep
    cases hs.getD i none with
    | none => rfl
    | some b => exact length_updateButton _ b l
  have hr : List.range BUTTON_COUNT = [0, 1, 2, 3] := by decide
  unfold placeButtons
  rw [hr]
  simp only [List.foldl_cons, List.foldl_nil, hstep]

theorem updateOverlayGeometry_buttonCount (q : Sample) (w : VulkanWidget) :
    buttonCount (updateOverlayGeometry q w) = buttonCount w := by
  cases hReady : w.m_overlayInitialized with
  | false => rw [updateOverlayGeometry_notReady q w hReady]
  | true =>
    cases hov : w.overlayWidget with
    | none => rw [updateOverlayGeometry_noOverlay q w hov]
    | some ov =>
      cases hShow : showCondition q w with
      | true =>
        rw [updateOverlayGeometry_show q w ov hReady hov hShow]
        simp only [buttonCount, hov, Option.map_some', length_placeButtons]
      | false =>
        rw [updateOverlayGeometry_hide q w ov hReady hov hShow]
        simp only [buttonCount, hov, Option.map_some']

theorem hideOverlayIfPresent_wiring (w : VulkanWidget) :
    (hideOverlayIfPresent w).m_overlayButtons = w.m_overlayButtons ∧
      buttonCount (hideOverlayIfPresent w) = buttonCount w := by
  unfold hideOverlayIfPresent buttonCount
  cases hov : w.overlayWidget with
  | none => simp [hov]
  | some ov => exact ⟨rfl, rfl⟩

theorem hideOverlayUnguarded_result (w w1 : VulkanWidget)
    (h : hideOverlayUnguarded w = some w1) : w1 = hideOverlayIfPresent w := by
  unfold hideOverlayUnguarded at h
  unfold hideOverlayIfPresent
  cases hov : w.overlayWidget with
  | none => simp [hov] at h
  | some ov =>
    simp only [hov, Option.some.injEq] at h
    exact h.symm

theorem fireSingleShot_wiring (i : Nat) (q : Sample) (w : VulkanWidget) :
    (fireSingleShot i q w).m_overlayButtons = w.m_overlayButtons ∧
      buttonCount (fireSingleShot i q w) = buttonCount w := by
  unfold fireSingleShot
  cases w.singleShots[i]? with
  | none => exact ⟨rfl, rfl⟩
  | some s =>
    cases hs : s.task with
    | recompute =>
      simp only [hs, runTask]
      exact ⟨updateOverlayGeometry_handles q _, updateOverlayGeometry_buttonCount q _⟩
    | firstLayout =>
      simp only [hs, runTask]
      exact ⟨updateOverlayGeometry_handles q _, updateOverlayGeometry_buttonCount q _⟩

theorem changeEvent_result (t : EventType) (q : Sample) (w w1 : VulkanWidget)
    (h : changeEvent t q w = some w1) :
    w1 = w ∨ w1 = hideOverlayIfPresent w ∨ ∃ d, w1 = scheduleSingleShot d Task.recompute w := by
  unfold changeEvent at h
  split at h
  · split at h
    · exact Or.inr (Or.inl (hideOverlayUnguarded_result w w1 h))
    · simp only [Option.some.injEq] at h
      exact Or.inr (Or.inr ⟨50, h.symm⟩)
  · split at h
    · split at h
      · simp only [Option.some.injEq] at h
        exact Or.inr (Or.inr ⟨10, h.symm⟩)
      · simp only [Option.some.injEq] at h
        exact Or.inl h.symm
    · simp only [Option.some.injEq] at h
      exact Or.inl h.symm

theorem eventFilterWindow_result (t : EventType) (q : Sample) (w : VulkanWidget) :
    eventFilterWindow t q w = w ∨ eventFilterWindow t q w = hideOverlayIfPresent w ∨
      ∃ d, eventFilterWindow t q w = scheduleSingleShot d Task.recompute w := by
  cases t with
  | WindowActivate => exact Or.inr (Or.inr ⟨10, rfl⟩)
  | WindowDeactivate => exact Or.inr (Or.inl rfl)
  | Show =>
    simp only [eventFilterWindow]
    split
    · exact Or.inr (Or.inr ⟨50, rfl⟩)
    · exact Or.inl rfl
  | Hide => exact Or.inr (Or.inl rfl)
  | Resize => exact Or.inl rfl
  | WindowStateChange => exact Or.inl rfl
  | ActivationChange => exact Or.inl rfl
  | Other => exact Or.inl rfl

theorem eventFilterContainer_result (t : EventType) (q : Sample) (w w1 : VulkanWidget)
    (h : eventFilterContainer t q w = some w1) :
    w1 = w ∨ w1 = hideOverlayIfPresent w ∨ ∃ d, w1 = scheduleSingleShot d Task.recompute w := by
  unfold eventFilterContainer at h
  split at h
  · simp only at h
    split at h
    · simp only [Option.some.injEq] at h
      exact Or.inr (Or.inr ⟨10, h.symm⟩)
    · exact Or.inr (Or.inl (hideOverlayUnguarded_result w w1 h))
  · simp only [Option.some.injEq] at h
    exact Or.inl h.symm

theorem eventFilter_result (x : Watched) (t : EventType) (q : Sample) (w w1 : VulkanWidget)
    (h : eventFilter x t q w = some w1) :
    w1 = w ∨ w1 = hideOverlayIfPresent w ∨ ∃ d, w1 = scheduleSingleShot d Task.recompute w := by
  unfold eventFilter at h
  split at h
  · cases x with
    | self =>
      simp only [if_true, reduceCtorEq, if_false, Option.some.injEq] at h
      subst h
      exact eventFilterWindow_result t q w
    | vulkanContainer =>
      simp only [reduceCtorEq, if_false, if_true] at h
      exact eventFilterContainer_result t q w w1 h
    | other =>
      simp only [reduceCtorEq, if_false, Option.some.injEq] at h
      exact Or.inl h.symm
  · simp only [Option.some.injEq] at h
    exact Or.inl h.symm

theorem wiring_of_result (w w1 : VulkanWidget)
    (h : w1 = w ∨ w1 = hideOverlayIfPresent w ∨
      ∃ d, w1 = scheduleSingleShot d Task.recompute w) :
    w1.m_overlayButtons = w.m_overlayButtons ∧ buttonCount w1 = buttonCount w ∧
      w1.m_overlayInitialized = w.m_overlayInitialized := by
  rcases h with h | h | ⟨d, h⟩
  · subst h
    exact ⟨rfl, rfl, rfl⟩
  · subst h
    exact ⟨(hideOverlayIfPresent_wiring w).1, (hideOverlayIfPresent_wiring w).2,
      hideOverlayIfPresent_initialized w⟩
  · subst h
    exact ⟨rfl, rfl, rfl⟩

theorem schedule_if_ready_result (w : VulkanWidget) :
    (if w.m_overlayInitialized = true then scheduleSingleShot 10 Task.recompute w else w) = w ∨
      (if w.m_overlayInitialized = true then scheduleSingleShot 10 Task.recompute w else w) =
        hideOverlayIfPresent w ∨
      ∃ d, (if w.m_overlayInitialized = true then scheduleSingleShot 10 Task.recompute w
        else w) = scheduleSingleShot d Task.recompute w := by
  split
  · exact Or.inr (Or.inr ⟨10, rfl⟩)
  · exact Or.inl rfl

theorem initializeOverlaySystem_handles (w : VulkanWidget) :
    (initializeOverlaySystem w).m_overlayButtons = w.m_overlayButtons := by
  unfold initializeOverlaySystem
  cases h : w.m_overlayUpdateTimer with
  | none => rfl
  | some k => simp [h]

/-- Every operation but the set-up (direct or through its timer) keeps the
handles, the number of buttons and the flag `m_overlayInitialized`. -/
theorem step_wiring (op : Op) (q : Sample) (w w1 : VulkanWidget)
    (hop : op ≠ Op.setupOverlayWidget) (hop2 : ∀ k, op ≠ Op.timerTimeout k)
    (h : step op q w = some w1) :
    w1.m_overlayButtons = w.m_overlayButtons ∧ buttonCount w1 = buttonCount w ∧
      w1.m_overlayInitialized = w.m_overlayInitialized := by
  cases op with
  | setupOverlayWidget => exact absurd rfl hop
  | timerTimeout k => exact absurd rfl (hop2 k)
  | initializeOverlaySystem =>
    simp only [step, Option.some.injEq] at h
    subst h
    refine ⟨initializeOverlaySystem_handles w, ?_, (initializeOverlaySystem_fields w).1⟩
    unfold buttonCount
    rw [(initializeOverlaySystem_fields w).2]
  | updateOverlayGeometry =>
    simp only [step, Option.some.injEq] at h
    subst h
    exact ⟨updateOverlayGeometry_handles q w, updateOverlayGeometry_buttonCount q w,
      updateOverlayGeometry_initialized q w⟩
  | fireSingleShot i =>
    simp only [step, Option.some.injEq] at h
    subst h
    exact ⟨(fireSingleShot_wiring i q w).1, (fireSingleShot_wiring i q w).2,
      fireSingleShot_initialized i q w⟩
  | focusOutEvent =>
    simp only [step, Option.some.injEq] at h
    exact wiring_of_result w w1 (Or.inr (Or.inl h.symm))
  | closeEvent =>
    simp only [step, Option.some.injEq] at h
    exact wiring_of_result w w1 (Or.inr (Or.inl h.symm))
  | vulkanWindowDestroyed =>
    simp only [step, Option.some.injEq] at h
    exact wiring_of_result w w1 (Or.inr (Or.inl h.symm))
  | focusInEvent =>
    simp only [step, Option.some.injEq] at h
    subst h
    exact wiring_of_result w _ (schedule_if_ready_result w)
  | resizeEvent =>
    simp only [step, Option.some.injEq] at h
    subst h
    exact wiring_of_result w _ (schedule_if_ready_result w)
  | moveEvent =>
    simp only [step, Option.some.injEq] at h
    subst h
    exact wiring_of_result w _ (schedule_if_ready_result w)
  | changeEvent t => exact wiring_of_result w w1 (changeEvent_result t q w w1 h)
  | eventFilter x t => exact wiring_of_result w w1 (eventFilter_result x t q w w1 h)

theorem setupOverlayWidget_wired (w : VulkanWidget)
    (hReady : (setupOverlayWidget w).m_overlayInitialized = true)
    (hw : w.m_overlayInitialized = true → wired w) : wired (setupOverlayWidget w) := by
  cases hf : w.m_overlayInitialized with
  | true =>
    rw [setupOverlayWidget_ready w hf]
    exact hw hf
  | false =>
    cases hov : w.overlayWidget with
    | none =>
      rw [setupOverlayWidget_noOverlay w hov, hf] at hReady
      exact absurd hReady (by decide)
    | some ov =>
      rw [setupOverlayWidget_fresh w ov hf hov]
      refine ⟨rfl, (adopted ov.buttons).length, rfl, ?_⟩
      rw [length_adopted]
      exact Nat.le_max_right _ _

theorem timerTimeout_wired (k : Nat) (w : VulkanWidget)
    (hReady : (timerTimeout k w).m_overlayInitialized = true)
    (hw : w.m_overlayInitialized = true → wired w) : wired (timerTimeout k w) := by
  unfold timerTimeout at hReady ⊢
  cases ht : w.timers[k]? with
  | none =>
    simp only [ht] at hReady
    exact hw hReady
  | some t =>
    simp only [ht] at hReady ⊢
    by_cases ha : t.active = true
    · rw [if_pos ha] at hReady ⊢
      exact setupOverlayWidget_wired _ hReady hw
    · rw [if_neg ha] at hReady ⊢
      exact hw hReady

theorem wired_of_wiring (w w1 : VulkanWidget)
    (h : w1.m_overlayButtons = w.m_overlayButtons ∧ buttonCount w1 = buttonCount w)
    (hw : wired w) : wired w1 := by
  unfold wired at hw ⊢
  rw [h.1, h.2]
  exact hw

theorem reachable_wired (w : VulkanWidget) (h : Reachable w) :
    w.m_overlayInitialized = true → wired w := by
  induction h with
  | init w hc =>
    intro hReady
    rw [hc.1] at hReady
    exact absurd hReady (by decide)
  | next op q w w1 _ hstep ih =>
    intro hReady
    by_cases hop : op = Op.setupOverlayWidget
    · subst hop
      simp only [step, Option.some.injEq] at hstep
      subst hstep
      exact setupOverlayWidget_wired w hReady ih
    · by_cases hop2 : ∃ k, op = Op.timerTimeout k
      · obtain ⟨k, hk⟩ := hop2
        subst hk
        simp only [step, Option.some.injEq] at hstep
        subst hstep
        exact timerTimeout_wired k w hReady ih
      · have hne : ∀ k, op ≠ Op.timerTimeout k := fun k hk => hop2 ⟨k, hk⟩
        obtain ⟨h1, h2, h3⟩ := step_wiring op q w w1 hop hne hstep
        exact wired_of_wiring w w1 ⟨h1, h2⟩ (ih (h3 ▸ hReady))

theorem wired_handles (w : VulkanWidget) (hw : wired w) :
    w.overlayWidget.isSome = true ∧
      ∀ i, i < BUTTON_COUNT →
        w.m_overlayButtons.getD i none = some i ∧ (handleButton w i).isSome = true := by
  obtain ⟨hh, n, hn, hle⟩ := hw
  unfold buttonCount at hn
  cases hov : w.overlayWidget with
  | none => simp [hov] at hn
  | some ov =>
    rw [hov] at hn
    simp only [Option.map_some', Option.some.injEq] at hn
    refine ⟨rfl, ?_⟩
    intro i hi
    have hcases : i = 0 ∨ i = 1 ∨ i = 2 ∨ i = 3 := by
      unfold BUTTON_COUNT at hi
      omega
    have hk : w.m_overlayButtons.getD i none = some i := by
      rw [hh]
      rcases hcases with h | h | h | h <;> subst h <;> rfl
    refine ⟨hk, ?_⟩
    have hlt : i < ov.buttons.length := by omega
    simp only [handleButton, hov, hk]
    rw [List.getElem?_eq_getElem hlt]
    rfl

theorem step_not_ready_absent (op : Op) (q : Sample) (w : VulkanWidget)
    (hop : isControllerOp op = true) (hAbs : w.overlayWidget = none)
    (hNotReady : w.m_overlayInitialized = false) : step op q w = some w := by
  have hhide : hideOverlayIfPresent w = w := by simp [hideOverlayIfPresent, hAbs]
  cases op with
  | initializeOverlaySystem => simp [isControllerOp, isHandler] at hop
  | timerTimeout k => simp [isControllerOp, isHandler] at hop
  | fireSingleShot i => simp [isControllerOp, isHandler] at hop
  | setupOverlayWidget =>
    simp only [step]
    rw [setupOverlayWidget_noOverlay w hAbs]
  | updateOverlayGeometry =>
    simp only [step]
    rw [updateOverlayGeometry_noOverlay q w hAbs]
  | focusOutEvent =>
    simp only [step, focusOutEvent]
    rw [hhide]
  | closeEvent =>
    simp only [step, closeEvent]
    rw [hhide]
  | vulkanWindowDestroyed =>
    simp only [step, vulkanWindowDestroyed]
    rw [hhide]
  | focusInEvent =>
    simp only [step, focusInEvent]
    rw [if_neg (by simp [hNotReady])]
  | resizeEvent =>
    simp only [step, resizeEvent]
    rw [if_neg (by simp [hNotReady])]
  | moveEvent =>
    simp only [step, moveEvent]
    rw [if_neg (by simp [hNotReady])]
  | changeEvent t =>
    simp only [step]
    simp [changeEvent, hNotReady]
  | eventFilter x t =>
    simp only [step]
    simp [eventFilter, hNotReady]

/-- C22: in every reachable state in which the overlay widget is absent,
set-up, a recompute, every window-system handler and both tear-down paths
return the state unchanged, without a dereference of the missing widget; in
such a state `m_overlayInitialized` is not set.  Set-up, the recompute,
focus-out, close and the `destroyed` handler test the widget itself; the other
handlers test the flag `m_overlayInitialized`, which is only ever set with the
widget present. -/
theorem absent_overlay_noop (op : Op) (q : Sample) (w : VulkanWidget)
    (hop : isControllerOp op = true) (hReach : Reachable w)
    (hAbs : w.overlayWidget = none) :
    step op q w = some w ∧ w.m_overlayInitialized = false := by
  have hnr : w.m_overlayInitialized = false := by
    cases hf : w.m_overlayInitialized with
    | false => rfl
    | true =>
      have hs := (wired_handles w (reachable_wired w hReach hf)).1
      rw [hAbs] at hs
      exact absurd hs (by decide)
  exact ⟨step_not_ready_absent op q w hop hAbs hnr, hnr⟩

/-- C22 on a new widget without overlay: a window state change with the host
window minimized returns the state unchanged. -/
theorem absent_overlay_noop_witness :
    step (Op.changeEvent EventType.WindowStateChange) (sampleOf true true true true)
      (freshWidget none) = some (freshWidget none) :=
  (absent_overlay_noop (Op.changeEvent EventType.WindowStateChange)
    (sampleOf true true true true) (freshWidget none) rfl
    (Reachable.init _ ⟨rfl, rfl⟩) rfl).1

/-- C26: in every state reachable from a constructed widget by any operations,
`m_overlayInitialized` implies that the overlay widget is present and that
each of the four handles points to a button of the overlay (handle `i` to
child `i`); and in every reachable state every operation returns a state, so
the unguarded `hide()` of `changeEvent` (line 555) and of the surface branch
of `eventFilter` (line 678) never meets a missing overlay. -/
theorem reachable_ready_has_overlay (w : VulkanWidget) (h : Reachable w) :
    (w.m_overlayInitialized = true →
      w.overlayWidget.isSome = true ∧
        ∀ i, i < BUTTON_COUNT →
          w.m_overlayButtons.getD i none = some i ∧ (handleButton w i).isSome = true) ∧
      ∀ op q, (step op q w).isSome = true := by
  refine ⟨fun hReady => wired_handles w (reachable_wired w h hReady), ?_⟩
  intro op q
  cases hf : w.m_overlayInitialized with
  | true => exact step_isSome op q w (wired_handles w (reachable_wired w h hf)).1
  | false =>
    cases op with
    | changeEvent t =>
      have hc : changeEvent t q w = some w := by simp [changeEvent, hf]
      simp only [step]
      rw [hc]
      rfl
    | eventFilter x t =>
      have hc : eventFilter x t q w = some w := by simp [eventFilter, hf]
      simp only [step]
      rw [hc]
      rfl
    | _ => rfl

/-- C26 on the ready widget, reached from a new widget by the set-up: the
overlay is present and a minimizing state change returns a state. -/
theorem reachable_ready_has_overlay_witness :
    readyWidget.overlayWidget.isSome = true ∧
      (step (Op.changeEvent EventType.WindowStateChange) (sampleOf true true true true)
        readyWidget).isSome = true := by
  have hr : Reachable readyWidget :=
    Reachable.next Op.setupOverlayWidget (sampleSized 800 600)
      (freshWidget (some (overlayWith []))) readyWidget
      (Reachable.init _ ⟨rfl, rfl⟩) rfl
  have h := reachable_ready_has_overlay readyWidget hr
  exact ⟨(h.1 (by decide)).1, h.2 _ _⟩

/-- C24: in a Ready state a SurfaceResize or SurfaceShow notification appends
one recompute with delay 10 to the schedule, and changes nothing else, when
the sampled surface is wider than 50 and higher than 50; a notification adds
that entry only then.  With a width or a height of at most 50, 50 itself
included, and the overlay present, it schedules nothing and returns the state
with the overlay hidden. -/
theorem surface_notification_threshold (e : EventKind) (q : Sample) (w : VulkanWidget)
    (hReady : w.m_overlayInitialized = true) (hOv : w.overlayWidget.isSome = true)
    (he : e = EventKind.SurfaceResize ∨ e = EventKind.SurfaceShow) :
    ((∃ w1, notify e q w = some w1 ∧
        w1.singleShots = w.singleShots ++ [recomputeAfter 10]) ↔
        (q.containerSize.width > 50 ∧ q.containerSize.height > 50)) ∧
      (q.containerSize.width > 50 ∧ q.containerSize.height > 50 →
        notify e q w = some (scheduleSingleShot 10 Task.recompute w)) ∧
      (q.containerSize.width ≤ 50 ∨ q.containerSize.height ≤ 50 →
        notify e q w = some (hideOverlayIfPresent w) ∧
          (hideOverlayIfPresent w).singleShots = w.singleShots ∧
          overlayShown (hideOverlayIfPresent w) = false) := by
  obtain ⟨ov, hov⟩ := Option.isSome_iff_exists.mp hOv
  have hlarge : q.containerSize.width > 50 ∧ q.containerSize.height > 50 →
      notify e q w = some (scheduleSingleShot 10 Task.recompute w) := by
    intro hc
    rcases he with h | h <;> subst h
    · simp only [notify]
      rw [eventFilter_container_ready EventType.Resize q w hReady,
        eventFilterContainer_large EventType.Resize q w (Or.inl rfl) hc]
    · simp only [notify]
      rw [eventFilter_container_ready EventType.Show q w hReady,
        eventFilterContainer_large EventType.Show q w (Or.inr rfl) hc]
  have hsmall : ¬ (q.containerSize.width > 50 ∧ q.containerSize.height > 50) →
      notify e q w = some (hideOverlayIfPresent w) := by
    intro hc
    rcases he with h | h <;> subst h
    · simp only [notify]
      rw [eventFilter_container_ready EventType.Resize q w hReady,
        eventFilterContainer_small EventType.Resize q w (Or.inl rfl) hc,
        hideOverlayUnguarded_eq w hOv]
    · simp only [notify]
      rw [eventFilter_container_ready EventType.Show q w hReady,
        eventFilterContainer_small EventType.Show q w (Or.inr rfl) hc,
        hideOverlayUnguarded_eq w hOv]
  have hhs := hideOverlayIfPresent_singleShots w
  refine ⟨⟨?_, ?_⟩, hlarge, ?_⟩
  · rintro ⟨w1, h1, h2⟩
    by_contra hc
    rw [hsmall hc, Option.some.injEq] at h1
    rw [← h1, hhs] at h2
    have hlen := congrArg List.length h2
    simp at hlen
  · intro hc
    exact ⟨_, hlarge hc, rfl⟩
  · intro hc
    have hn : ¬ (q.containerSize.width > 50 ∧ q.containerSize.height > 50) := by
      intro h
      rcases hc with h1 | h1
      · exact absurd h.1 (Int.not_lt.mpr h1)
      · exact absurd h.2 (Int.not_lt.mpr h1)
    refine ⟨hsmall hn, hhs, ?_⟩
    rw [hideOverlayIfPresent_some w ov hov]
    rfl

/-- C24 on the ready widget shown at 800x600: a SurfaceResize sampled at
50x600 schedules nothing and hides the overlay; sampled at 51x51 it schedules
one recompute with delay 10. -/
theorem surface_notification_threshold_witness :
    (notify EventKind.SurfaceResize (sampleSized 50 600)
        (updateOverlayGeometry (sampleSized 800 600) readyWidget)).map
        (fun s => (overlayShown s, s.singleShots.length)) = some (false, 1) ∧
      (notify EventKind.SurfaceResize (sampleSized 51 51)
        (updateOverlayGeometry (sampleSized 800 600) readyWidget)).map
        (fun s => s.singleShots) =
        some [{ delay := 50, task := Task.firstLayout }, recomputeAfter 10] := by
  have h := surface_notification_threshold EventKind.SurfaceResize (sampleSized 50 600)
    (updateOverlayGeometry (sampleSized 800 600) readyWidget) (by decide) (by decide)
    (Or.inl rfl)
  have h2 := surface_notification_threshold EventKind.SurfaceResize (sampleSized 51 51)
    (updateOverlayGeometry (sampleSized 800 600) readyWidget) (by decide) (by decide)
    (Or.inl rfl)
  refine ⟨?_, ?_⟩
  · rw [(h.2.2 (Or.inl (by decide))).1]
    decide
  · rw [h2.2.1 ⟨by decide, by decide⟩]
    decide

/-- C25: in a Ready state a Deactivate and a Hide notification of the host
window, and `focusOutEvent` in any state, return at once a state in which the
overlay is not shown, its rectangle and the positions of its buttons are as
before, and the schedule is as before. -/
theorem synchronous_hide (q : Sample) (w : VulkanWidget) :
    (w.m_overlayInitialized = true →
      notify EventKind.Deactivate q w = some (hideOverlayIfPresent w) ∧
        notify EventKind.Hide q w = some (hideOverlayIfPresent w)) ∧
      focusOutEvent w = hideOverlayIfPresent w ∧
      overlayShown (hideOverlayIfPresent w) = false ∧
      overlayRect (hideOverlayIfPresent w) = overlayRect w ∧
      buttonPositions (hideOverlayIfPresent w) = buttonPositions w ∧
      (hideOverlayIfPresent w).singleShots = w.singleShots := by
  refine ⟨?_, rfl, ?_, ?_, ?_, hideOverlayIfPresent_singleShots w⟩
  · intro hReady
    exact ⟨eventFilter_self_ready EventType.WindowDeactivate q w hReady,
      eventFilter_self_ready EventType.Hide q w hReady⟩
  · cases hov : w.overlayWidget with
    | none => simp [hideOverlayIfPresent, overlayShown, hov]
    | some ov => rw [hideOverlayIfPresent_some w ov hov]; rfl
  · cases hov : w.overlayWidget with
    | none => simp [hideOverlayIfPresent, hov]
    | some ov => rw [hideOverlayIfPresent_some w ov hov]; simp [overlayRect, hov]
  · cases hov : w.overlayWidget with
    | none => simp [hideOverlayIfPresent, hov]
    | some ov => rw [hideOverlayIfPresent_some w ov hov]; simp [buttonPositions, hov]

/-- C25 on the ready widget shown at 800x600: a Deactivate notification
leaves it hidden, with rectangle and schedule unchanged. -/
theorem synchronous_hide_witness :
    (notify EventKind.Deactivate (sampleSized 800 600)
        (updateOverlayGeometry (sampleSized 800 600) readyWidget)).map
        (fun s => (overlayShown s, overlayRect s, s.singleShots.length)) =
      some (false,
        some { topLeft := { x := 100, y := 80 }, size := { width := 800, height := 600 } },
        1) := by
  rw [((synchronous_hide (sampleSized 800 600)
    (updateOverlayGeometry (sampleSized 800 600) readyWidget)).1 (by decide)).1]
  decide

/-! ## Claims on the button column -/

theorem adopted_sized (bs : List QPushButton) (i : Nat) (hi : i < BUTTON_COUNT) :
    ∃ b, (adopted bs)[i]? = some b ∧
      b.fixedSize = some { width := BUTTON_WIDTH, height := BUTTON_HEIGHT } := by
  by_cases hlt : i < bs.length
  · rw [getElem?_adopted_old bs i hi hlt, List.getElem?_eq_getElem hlt]
    exact ⟨_, rfl, rfl⟩
  · rw [getElem?_adopted_new bs i hi (Nat.le_of_not_lt hlt)]
    exact ⟨_, rfl, rfl⟩

theorem handleButton_positioned (rs : QSize) (w0 : VulkanWidget) (ov : OverlayWidget)
    (hOv : w0.overlayWidget = some ov) (i : Nat) (hi : i < BUTTON_COUNT) :
    ∃ b, handleButton (positionButtons rs (initializeButtonArray w0)) i = some b ∧
      buttonRect b =
        { topLeft := { x := buttonX rs, y := buttonY i }
          size := { width := BUTTON_WIDTH, height := BUTTON_HEIGHT } } := by
  have hcases : i = 0 ∨ i = 1 ∨ i = 2 ∨ i = 3 := by
    unfold BUTTON_COUNT at hi
    omega
  have hk : ([some 0, some 1, some 2, some 3] : List (Option Nat)).getD i none = some i := by
    rcases hcases with h | h | h | h <;> subst h <;> rfl
  have hne : ∀ j, j < BUTTON_COUNT → j ≠ i →
      ([some 0, some 1, some 2, some 3] : List (Option Nat)).getD j none ≠ some i := by
    intro j hj hji
    have hjc : j = 0 ∨ j = 1 ∨ j = 2 ∨ j = 3 := by
      unfold BUTTON_COUNT at hj
      omega
    rcases hjc with h | h | h | h <;> subst h <;>
      simp only [List.getD_cons_zero, List.getD_cons_succ, ne_eq, Option.some.injEq] <;>
      omega
  obtain ⟨b0, hb0, hsz⟩ := adopted_sized ov.buttons i hi
  refine ⟨placed rs i b0, ?_, ?_⟩
  · rw [initializeButtonArray_some w0 ov hOv, positionButtons_eq]
    simp only [handleButton, mapOverlay, Option.map_some', hk]
    rw [getElem?_placeButtons_of_unique rs _ _ i i hi hk hne, hb0]
    rfl
  · simp only [buttonRect, placed, hsz, Option.getD_some]

/-- C27: the four buttons as `initializeButtonArray` builds them (120x40) and
`positionButtons` places them for a surface of size `(w, h)` all lie wholly
inside the overlay rectangle `(0, 0, w, h)` exactly when `w >= 130` and
`h >= 200`.  Each button starts 10 units below the lower edge of the button
before it, so consecutive buttons never overlap. -/
theorem buttons_inside_iff (rs : QSize) (w0 : VulkanWidget) (ov : OverlayWidget)
    (hOv : w0.overlayWidget = some ov) :
    ((∀ i, i < BUTTON_COUNT →
        ∃ b, handleButton (positionButtons rs (initializeButtonArray w0)) i = some b ∧
          within (buttonRect b) (overlayLocalRect rs)) ↔
        (130 ≤ rs.width ∧ 200 ≤ rs.height)) ∧
      ∀ i, i + 1 < BUTTON_COUNT →
        ∃ b b1, handleButton (positionButtons rs (initializeButtonArray w0)) i = some b ∧
          handleButton (positionButtons rs (initializeButtonArray w0)) (i + 1) = some b1 ∧
          (buttonRect b1).topLeft.y -
            ((buttonRect b).topLeft.y + (buttonRect b).size.height) = 10 := by
  constructor
  · constructor
    · intro h
      obtain ⟨b, hb, hin⟩ := h 0 (by decide)
      obtain ⟨b3, hb3, hin3⟩ := h 3 (by decide)
      obtain ⟨c, hc, hrect⟩ := handleButton_positioned rs w0 ov hOv 0 (by decide)
      obtain ⟨c3, hc3, hrect3⟩ := handleButton_positioned rs w0 ov hOv 3 (by decide)
      rw [hc] at hb
      rw [hc3] at hb3
      simp only [Option.some.injEq] at hb hb3
      subst hb hb3
      rw [hrect] at hin
      rw [hrect3] at hin3
      simp only [within, overlayLocalRect, buttonX, buttonY, BUTTON_WIDTH, BUTTON_HEIGHT,
        SPACING, TOP_MARGIN] at hin hin3
      constructor
      · omega
      · have := hin3.2.2.2
        push_cast at this
        omega
    · intro hsz i hi
      obtain ⟨c, hc, hrect⟩ := handleButton_positioned rs w0 ov hOv i hi
      refine ⟨c, hc, ?_⟩
      rw [hrect]
      simp only [within, overlayLocalRect, buttonX, buttonY, BUTTON_WIDTH, BUTTON_HEIGHT,
        SPACING, TOP_MARGIN]
      unfold BUTTON_COUNT at hi
      refine ⟨by omega, by omega, by omega, ?_⟩
      have hi2 : (i : Int) ≤ 3 := by omega
      omega
  · intro i hi
    obtain ⟨c, hc, hrect⟩ := handleButton_positioned rs w0 ov hOv i (by omega)
    obtain ⟨c1, hc1, hrect1⟩ := handleButton_positioned rs w0 ov hOv (i + 1) hi
    refine ⟨c, c1, hc, hc1, ?_⟩
    rw [hrect, hrect1]
    simp only [buttonY, BUTTON_HEIGHT, SPACING, TOP_MARGIN]
    push_cast
    omega

/-- C27 for a 60x60 surface, which passes the 50x50 threshold: not all four
buttons lie inside the overlay. -/
theorem buttons_inside_iff_witness :
    ¬ (∀ i, i < BUTTON_COUNT →
      ∃ b, handleButton (positionButtons { width := 60, height := 60 }
          (initializeButtonArray (freshWidget (some (overlayWith []))))) i = some b ∧
        within (buttonRect b) (overlayLocalRect { width := 60, height := 60 })) := by
  intro h
  have h2 := ((buttons_inside_iff { width := 60, height := 60 }
    (freshWidget (some (overlayWith []))) (overlayWith []) rfl).1).mp h
  exact absurd h2.1 (by decide)

/-! ## Claims on the outliner -/

theorem getElem?_setRowVisible (v : Bool) (i : Nat) (rows : List QTreeWidgetItem) (j : Nat) :
    (setRowVisible v i rows)[j]? =
      if j = i then rows[j]?.map (fun r => { r with visible := v }) else rows[j]? := by
  induction rows generalizing i j with
  | nil => simp [setRowVisible]
  | cons r rows ih =>
    cases i with
    | zero =>
      cases j with
      | zero => simp [setRowVisible]
      | succ j => simp [setRowVisible]
    | succ i =>
      cases j with
      | zero => simp [setRowVisible]
      | succ j => simp [setRowVisible, ih]

theorem foldl_setRowVisible (v : Bool) (n : Nat) (s : Scene) :
    ((List.range n).foldl
        (fun t i => { t with outlinerTree := setRowVisible v i t.outlinerTree })
        s).m_primitiveItems = s.m_primitiveItems ∧
      ∀ j, ((List.range n).foldl
        (fun t i => { t with outlinerTree := setRowVisible v i t.outlinerTree })
        s).outlinerTree[j]? =
          if j < n then s.outlinerTree[j]?.map (fun r => { r with visible := v })
          else s.outlinerTree[j]? := by
  induction n with
  | zero => exact ⟨rfl, fun j => by simp⟩
  | succ n ih =>
    rw [List.range_succ, List.foldl_append]
    simp only [List.foldl_cons, List.foldl_nil]
    refine ⟨ih.1, ?_⟩
    intro j
    rw [getElem?_setRowVisible, ih.2 j]
    by_cases hj : j = n
    · subst hj
      simp
    · by_cases hlt : j < n
      · have h1 : j < n + 1 := by omega
        simp [hj, hlt, h1]
      · have h1 : ¬ j < n + 1 := by omega
        simp [hj, hlt, h1]

theorem setAllVisible_eq (v : Bool) (s : Scene) :
    setAllVisible v s =
      { s with outlinerTree := s.outlinerTree.map (fun r => { r with visible := v }) } := by
  have h := foldl_setRowVisible v s.outlinerTree.length s
  have hrows : (setAllVisible v s).outlinerTree =
      s.outlinerTree.map (fun r => { r with visible := v }) := by
    apply List.ext_getElem?
    intro j
    unfold setAllVisible
    rw [h.2 j, List.getElem?_map]
    by_cases hlt : j < s.outlinerTree.length
    · rw [if_pos hlt]
    · rw [if_neg hlt, List.getElem?_eq_none (Nat.le_of_not_lt hlt)]
      rfl
  have hreg : (setAllVisible v s).m_primitiveItems = s.m_primitiveItems := h.1
  cases hs : setAllVisible v s with
  | mk rows reg =>
    rw [hs] at hrows hreg
    simp only at hrows hreg
    rw [hrows, hreg]

/-- C23: whatever the outliner holds, `onShowAllClicked` sets the visibility
flag of every top-level row to true and `onHideAllClicked` sets it to false,
and each leaves the number of rows, their texts and the primitive registry as
they were. -/
theorem show_hide_all (s : Scene) :
    (onShowAllClicked s).outlinerTree.map (fun r => r.visible) =
        List.replicate s.outlinerTree.length true ∧
      (onHideAllClicked s).outlinerTree.map (fun r => r.visible) =
        List.replicate s.outlinerTree.length false ∧
      (onShowAllClicked s).outlinerTree.length = s.outlinerTree.length ∧
      (onHideAllClicked s).outlinerTree.length = s.outlinerTree.length ∧
      (onShowAllClicked s).outlinerTree.map (fun r => r.text) =
        s.outlinerTree.map (fun r => r.text) ∧
      (onHideAllClicked s).outlinerTree.map (fun r => r.text) =
        s.outlinerTree.map (fun r => r.text) ∧
      (onShowAllClicked s).m_primitiveItems = s.m_primitiveItems ∧
      (onHideAllClicked s).m_primitiveItems = s.m_primitiveItems := by
  have hflags : ∀ (v : Bool) (rows : List QTreeWidgetItem),
      (rows.map (fun r => ({ r with visible := v } : QTreeWidgetItem))).map
        (fun r => r.visible) = List.replicate rows.length v := by
    intro v rows
    induction rows with
    | nil => rfl
    | cons r rows ih =>
      simp only [List.map_cons, List.length_cons, List.replicate_succ, ih]
  have htexts : ∀ (v : Bool) (rows : List QTreeWidgetItem),
      (rows.map (fun r => ({ r with visible := v } : QTreeWidgetItem))).map
        (fun r => r.text) = rows.map (fun r => r.text) := by
    intro v rows
    induction rows with
    | nil => rfl
    | cons r rows ih => simp only [List.map_cons, ih]
  unfold onShowAllClicked onHideAllClicked
  rw [setAllVisible_eq true s, setAllVisible_eq false s]
  exact ⟨hflags true _, hflags false _, List.length_map _ _, List.length_map _ _,
    htexts true _, htexts false _, rfl, rfl⟩

theorem qmapAssign_fresh (key : Nat) (value : Int) (l : List (Nat × Int))
    (h : ∀ p ∈ l, p.1 ≠ key) : qmapAssign key value l = l ++ [(key, value)] := by
  induction l with
  | nil => rfl
  | cons p l ih =>
    obtain ⟨k, v⟩ := p
    have hk : k ≠ key := h (k, v) (List.mem_cons_self _ _)
    simp only [qmapAssign, if_neg hk, List.cons_append]
    rw [ih (fun p hp => h p (List.mem_cons_of_mem _ hp))]

theorem addPrimitiveRow_some (label : String) (id : Int) (s : Scene)
    (h : registryMatches s) :
    addPrimitiveRow label (some id) s =
      { outlinerTree := s.outlinerTree ++
          [{ text := label, userCheckable := false, visible := true }]
        m_primitiveItems := s.m_primitiveItems ++ [(s.outlinerTree.length, id)] } := by
  have hfresh : ∀ p ∈ s.m_primitiveItems, p.1 ≠ s.outlinerTree.length := by
    intro p hp
    have hmem : p.1 ∈ s.m_primitiveItems.map Prod.fst := List.mem_map_of_mem _ hp
    rw [h, List.mem_range] at hmem
    omega
  simp only [addPrimitiveRow]
  rw [qmapAssign_fresh _ _ _ hfresh]

theorem registryMatches_add (label : String) (renderer : Option Int) (s : Scene)
    (h : registryMatches s) : registryMatches (addPrimitiveRow label renderer s) := by
  cases renderer with
  | none => exact h
  | some id =>
    rw [addPrimitiveRow_some label id s h]
    unfold registryMatches at h ⊢
    simp only [List.map_append, List.map_cons, List.map_nil, List.length_append,
      List.length_cons, List.length_nil, h]
    rw [List.range_succ]

theorem registryMatches_step (s : Scene) (a : SceneAction) (h : registryMatches s) :
    registryMatches (runSceneAction s a) := by
  cases a with
  | cube r => exact registryMatches_add "Cube" r s h
  | sphere r => exact registryMatches_add "Sphere" r s h
  | cylinder r => exact registryMatches_add "Cylinder" r s h
  | pyramid r => exact registryMatches_add "Pyramid" r s h
  | clear p =>
    cases p with
    | false => exact h
    | true => rfl

/-- C28: under every sequence of add (cube, sphere, cylinder, pyramid) and
clear actions, from the empty scene or from any scene in which the keys of the
registry are the rows, the keys of the registry are again the rows: one entry
per row.  An add with a renderer present appends one row, with the label of
the primitive and visible, and one registry entry from that row to the id the
renderer returned; a clear with a renderer present empties both; with the
renderer absent every one of these actions leaves the scene as it is. -/
theorem registry_matches_rows (actions : List SceneAction) (s : Scene)
    (h : registryMatches s) :
    registryMatches (actions.foldl runSceneAction s) ∧
      registryMatches (actions.foldl runSceneAction emptyScene) ∧
      (∀ id, onCubeClicked (some id) s =
        { outlinerTree := s.outlinerTree ++
            [{ text := "Cube", userCheckable := false, visible := true }]
          m_primitiveItems := s.m_primitiveItems ++ [(s.outlinerTree.length, id)] }) ∧
      (∀ id, onSphereClicked (some id) s =
        { outlinerTree := s.outlinerTree ++
            [{ text := "Sphere", userCheckable := false, visible := true }]
          m_primitiveItems := s.m_primitiveItems ++ [(s.outlinerTree.length, id)] }) ∧
      (∀ id, onCylinderClicked (some id) s =
        { outlinerTree := s.outlinerTree ++
            [{ text := "Cylinder", userCheckable := false, visible := true }]
          m_primitiveItems := s.m_primitiveItems ++ [(s.outlinerTree.length, id)] }) ∧
      (∀ id, onPyramidClicked (some id) s =
        { outlinerTree := s.outlinerTree ++
            [{ text := "Pyramid", userCheckable := false, visible := true }]
          m_primitiveItems := s.m_primitiveItems ++ [(s.outlinerTree.length, id)] }) ∧
      onClearClicked true s = emptyScene ∧
      onCubeClicked none s = s ∧ onSphereClicked none s = s ∧
      onCylinderClicked none s = s ∧ onPyramidClicked none s = s ∧
      onClearClicked false s = s := by
  have hseq : ∀ (l : List SceneAction) (t : Scene), registryMatches t →
      registryMatches (l.foldl runSceneAction t) := by
    intro l
    induction l with
    | nil => exact fun t ht => ht
    | cons a l ih =>
      intro t ht
      exact ih _ (registryMatches_step t a ht)
  exact ⟨hseq actions s h, hseq actions emptyScene rfl,
    fun id => addPrimitiveRow_some "Cube" id s h,
    fun id => addPrimitiveRow_some "Sphere" id s h,
    fun id => addPrimitiveRow_some "Cylinder" id s h,
    fun id => addPrimitiveRow_some "Pyramid" id s h,
    rfl, rfl, rfl, rfl, rfl, rfl⟩

/-- C28 on the empty scene: a cube (id 7), a sphere with the renderer absent
and a pyramid (id 9) leave two rows and the registry entries 0 to 7 and 1 to 9. -/
theorem registry_matches_rows_witness :
    registryMatches ([SceneAction.cube (some 7), SceneAction.sphere none,
        SceneAction.pyramid (some 9)].foldl runSceneAction emptyScene) ∧
      ([SceneAction.cube (some 7), SceneAction.sphere none,
        SceneAction.pyramid (some 9)].foldl runSceneAction emptyScene) =
        { outlinerTree :=
            [{ text := "Cube", userCheckable := false, visible := true },
             { text := "Pyramid", userCheckable := false, visible := true }]
          m_primitiveItems := [(0, 7), (1, 9)] } :=
  ⟨(registry_matches_rows [SceneAction.cube (some 7), SceneAction.sphere none,
      SceneAction.pyramid (some 9)] emptyScene rfl).1, by decide⟩

/-! ## Claims on the eye icon -/

/-- C29: for every item rectangle, `editorEvent` tests the rectangle that
`paint` draws the icon in, the 16x16 rectangle at
`(right - 16 - 5, y + (height - 16) / 2)`.  On a mouse release the visibility
flag of the row is negated, and `true` returned, exactly when the position lies
in that rectangle (edges included); a release outside it, and any other event,
leaves the flag as it is.  Two releases inside the rectangle restore the flag. -/
theorem editorEvent_toggles_in_icon (pos pos1 : QPoint) (rect : QRect) (base base1 : Bool)
    (v : Bool) :
    editorEventIconRect rect = paintIconRect rect ∧
      editorEventIconRect rect =
        { topLeft :=
            { x := rect.right - 16 - 5
              y := rect.topLeft.y + Int.tdiv (rect.size.height - 16) 2 }
          size := { width := 16, height := 16 } } ∧
      ((editorEventIconRect rect).contains pos = true ↔
        (rect.right - 16 - 5 ≤ pos.x ∧ pos.x < rect.right - 16 - 5 + 16 ∧
          rect.topLeft.y + Int.tdiv (rect.size.height - 16) 2 ≤ pos.y ∧
          pos.y < rect.topLeft.y + Int.tdiv (rect.size.height - 16) 2 + 16)) ∧
      (editorEvent EditorEventType.MouseButtonRelease pos rect base v = (true, !v) ↔
        (editorEventIconRect rect).contains pos = true) ∧
      ((editorEventIconRect rect).contains pos = false →
        editorEvent EditorEventType.MouseButtonRelease pos rect base v = (base, v)) ∧
      editorEvent EditorEventType.Other pos rect base v = (base, v) ∧
      ((editorEventIconRect rect).contains pos = true →
        (editorEventIconRect rect).contains pos1 = true →
        (editorEvent EditorEventType.MouseButtonRelease pos1 rect base1
          (editorEvent EditorEventType.MouseButtonRelease pos rect base v).2).2 = v) := by
  have hrel : ∀ (p : QPoint) (b u : Bool), (editorEventIconRect rect).contains p = true →
      editorEvent EditorEventType.MouseButtonRelease p rect b u = (true, !u) := by
    intro p b u hc
    simp [editorEvent, hc]
  have hout : ∀ (p : QPoint) (b u : Bool), (editorEventIconRect rect).contains p = false →
      editorEvent EditorEventType.MouseButtonRelease p rect b u = (b, u) := by
    intro p b u hc
    simp [editorEvent, hc]
  refine ⟨rfl, rfl, ?_, ?_, hout pos base v, rfl, ?_⟩
  · simp only [QRect.contains, editorEventIconRect, QRect.right, QRect.bottom,
      Bool.and_eq_true, decide_eq_true_eq]
    constructor
    · intro h
      split_ifs at h <;> omega
    · intro h
      split_ifs <;> omega
  · constructor
    · intro h
      cases hc : (editorEventIconRect rect).contains pos with
      | true => rfl
      | false =>
        rw [hout pos base v hc] at h
        cases v <;> simp at h
    · exact hrel pos base v
  · intro hc hc1
    rw [hrel pos base v hc, hrel pos1 base1 _ hc1]
    cases v <;> rfl

/-- C29 for a 200x20 row at (0, 40): the icon rectangle is the 16x16 rectangle
at (178, 42); a release at (180, 45) toggles the flag and a release at
(100, 45) does not. -/
theorem editorEvent_toggles_in_icon_witness :
    editorEventIconRect
        { topLeft := { x := 0, y := 40 }, size := { width := 200, height := 20 } } =
      { topLeft := { x := 178, y := 42 }, size := { width := 16, height := 16 } } ∧
      editorEvent EditorEventType.MouseButtonRelease { x := 180, y := 45 }
        { topLeft := { x := 0, y := 40 }, size := { width := 200, height := 20 } }
        false true = (true, false) ∧
      editorEvent EditorEventType.MouseButtonRelease { x := 100, y := 45 }
        { topLeft := { x := 0, y := 40 }, size := { width := 200, height := 20 } }
        false true = (false, true) := by
  have h := editorEvent_toggles_in_icon { x := 180, y := 45 } { x := 180, y := 45 }
    { topLeft := { x := 0, y := 40 }, size := { width := 200, height := 20 } } false false
    true
  have h2 := editorEvent_toggles_in_icon { x := 100, y := 45 } { x := 100, y := 45 }
    { topLeft := { x := 0, y := 40 }, size := { width := 200, height := 20 } } false false
    true
  exact ⟨by decide, h.2.2.2.1.mpr (by decide), h2.2.2.2.2.1 (by decide)⟩

end EditorWindow
